import Mathlib

/-!
# zabbix_module_lxd: a shallow embedding of `src/zabbix_module_lxd.c`

C strings are lists of characters (`List Char`, NUL terminator left implicit).
The file system is a record of observations (`Env`): which files open and with
which content, which directories open, how many processors are online.
The globals `stat_dir`, `driver`, `cpu_cgroup` are a record (`Globals`) passed
through every function that can read or write them; a `NULL` pointer is `none`.
-/

namespace ZabbixLxd

/-! ## libc and Zabbix library primitives used by the module -/

/-- C string literal as a character list. -/
abbrev cstr (s : String) : List Char := s.toList

/-- The libc `strlen`. -/
def strlen (s : List Char) : Nat := s.length

/-- The libc `isspace` in the C locale: space, `\t`, `\n`, `\v`, `\f`, `\r`. -/
def isspace (c : Char) : Bool :=
  c == ' ' || c == '\t' || c == '\n' || c == Char.ofNat 11 || c == Char.ofNat 12 || c == '\r'

/-- The libc `isdigit`. -/
def isdigit (c : Char) : Bool := decide ('0' ≤ c) && decide (c ≤ '9')

/-- The libc `strstr(haystack, needle)`: the suffix of `haystack` that starts at the first
occurrence of `needle`, or `none` (NULL) when there is none. -/
def strstr : List Char → List Char → Option (List Char)
  | [], needle => if needle.isPrefixOf [] then some [] else none
  | c :: cs, needle => if needle.isPrefixOf (c :: cs) then some (c :: cs) else strstr cs needle

/-- The libc `strncmp(a, b, n) == 0`: the first `n` characters of both strings agree
(a string shorter than `n` has to agree up to and including its end). -/
def strncmp_eq0 (a b : List Char) (n : Nat) : Bool := a.take n == b.take n

/-- The libc `strcmp(a, b) == 0`. -/
def strcmp_eq0 (a b : List Char) : Bool := a == b

/-- The libc `strchr(s, c) != NULL`. -/
def strchr_found (s : List Char) (c : Char) : Bool := s.contains c

/-- Zabbix `zbx_strlcpy(dst, src, siz)`: the content of `dst` afterwards, at most `siz - 1`
characters of `src` (`siz = 0` writes nothing; `dst` is then taken as empty). -/
def zbx_strlcpy (src : List Char) (siz : Nat) : List Char := src.take (siz - 1)

/-- Zabbix `zbx_strlcat(dst, src, siz)`: walks to the end of `dst`, decrementing `siz` once per
character, then `zbx_strlcpy` of `src` into what is left. -/
def zbx_strlcat (dst src : List Char) (siz : Nat) : List Char :=
  dst ++ zbx_strlcpy src (siz - strlen dst)

/-- Scanning worker of `string_replace`: `skip` characters of a matched occurrence remain to be
dropped; otherwise an occurrence of `sub_str1` at the cursor is replaced by `sub_str2` and the
scan goes on behind it, and any other character is copied. -/
def string_replace_from (sub_str1 sub_str2 : List Char) : Nat → List Char → List Char
  | _, [] => []
  | skip + 1, _ :: cs => string_replace_from sub_str1 sub_str2 skip cs
  | 0, c :: cs =>
    if sub_str1.isPrefixOf (c :: cs) then
      sub_str2 ++ string_replace_from sub_str1 sub_str2 (strlen sub_str1 - 1) cs
    else c :: string_replace_from sub_str1 sub_str2 0 cs

/-- Zabbix `string_replace(str, sub_str1, sub_str2)` (libs/zbxcommon/str.c): a fresh string in
which every occurrence of the non-empty `sub_str1`, found left to right without overlap, is
replaced by `sub_str2`. -/
def string_replace (str sub_str1 sub_str2 : List Char) : List Char :=
  string_replace_from sub_str1 sub_str2 0 str

/-- One call of libc `fgets(buf, size, fp)` with `room = size - 1`: the characters stored in the
buffer and the rest of the stream. It stops behind a newline, at end of file, or when the
buffer is full. -/
def fgets_chunk : Nat → List Char → List Char × List Char
  | 0, s => ([], s)
  | _ + 1, [] => ([], [])
  | room + 1, c :: cs =>
    if c = '\n' then ([c], cs)
    else ((c :: (fgets_chunk room cs).1), (fgets_chunk room cs).2)

/-- The successive buffer contents that `while (fgets(buf, size, fp) != NULL)` sees when the
loop body runs to the end of the file; `fuel` bounds the number of calls. -/
def fgets_loop (size : Nat) : Nat → List Char → List (List Char)
  | 0, _ => []
  | _, [] => []
  | fuel + 1, c :: cs =>
    (fgets_chunk (size - 1) (c :: cs)).1 ::
      fgets_loop size fuel (fgets_chunk (size - 1) (c :: cs)).2

/-- All buffers read from a stream by repeated `fgets` with a buffer of `size >= 2` bytes:
every call consumes a character, so the stream length is enough fuel. -/
def fgets_all (size : Nat) (stream : List Char) : List (List Char) :=
  fgets_loop size stream.length stream

/-- Zabbix `MAX_STRING_LEN` (include/common.h). -/
def MAX_STRING_LEN : Nat := 2048

/-- The scanf directive for white space: skips any amount of it. -/
def scan_skip_space (s : List Char) : List Char := s.dropWhile isspace

/-- The scanf directive `%*s`: skips white space, then a non-empty run of non-space
characters, storing nothing; the rest of the input, or `none` at end of input. -/
def scan_skip_token (s : List Char) : Option (List Char) :=
  match scan_skip_space s with
  | [] => none
  | c :: cs => some ((c :: cs).dropWhile (fun x => !isspace x))

/-- Decimal value of a run of digit characters. -/
def digits_value (ds : List Char) : Nat :=
  ds.foldl (fun acc c => 10 * acc + (c.toNat - '0'.toNat)) 0

/-- What `strtoul` in base 10 returns for a sign and a digit run, as a 64-bit unsigned value:
`ULONG_MAX` on overflow, the two's complement negation after a minus sign. -/
def strtoul10 (negative : Bool) (ds : List Char) : Nat :=
  if 2 ^ 64 ≤ digits_value ds then 2 ^ 64 - 1
  else if negative then (2 ^ 64 - digits_value ds) % 2 ^ 64
  else digits_value ds

/-- Digit run of a `%lu` conversion behind the optional sign: at least one digit is needed. -/
def scan_digits (negative : Bool) (s : List Char) : Option Nat :=
  match s.takeWhile isdigit with
  | [] => none
  | d :: ds => some (strtoul10 negative (d :: ds))

/-- The scanf conversion `ZBX_FS_UI64` (`%lu`): skips white space, accepts an optional sign
and a non-empty digit run; `none` is a matching or input failure. -/
def scan_ui64 (s : List Char) : Option Nat :=
  match scan_skip_space s with
  | '-' :: cs => scan_digits true cs
  | '+' :: cs => scan_digits false cs
  | cs => scan_digits false cs

/-- The call `sscanf(line, "%*s " ZBX_FS_UI64, &value)`: `some value` exactly when it returns 1. -/
def sscanf_s_ui64 (line : List Char) : Option Nat :=
  match scan_skip_token line with
  | none => none
  | some r => scan_ui64 (scan_skip_space r)

/-- The call `sscanf(line, "%*s %*s " ZBX_FS_UI64, &value)`: `some value` exactly when it
returns 1. -/
def sscanf_s_s_ui64 (line : List Char) : Option Nat :=
  match scan_skip_token line with
  | none => none
  | some r =>
    match scan_skip_token (scan_skip_space r) with
    | none => none
    | some r2 => scan_ui64 (scan_skip_space r2)

/-! ## Module state, environment and results -/

/-- Zabbix `SYSINFO_RET_OK`. -/
def SYSINFO_RET_OK : Nat := 0

/-- Zabbix `SYSINFO_RET_FAIL`. -/
def SYSINFO_RET_FAIL : Nat := 1

/-- The globals `stat_dir`, `driver`, `cpu_cgroup` (line 52); `none` is the NULL pointer, which
is also the initial value of all three. -/
structure Globals where
  stat_dir : Option (List Char) := none
  driver : Option (List Char) := none
  cpu_cgroup : Option (List Char) := none
  deriving DecidableEq, Repr

/-- The fields of `struct statvfs` the module reads, each an unsigned 64-bit value. -/
structure statvfs_t where
  f_bsize : Nat
  f_frsize : Nat
  f_blocks : Nat
  f_bfree : Nat
  f_bavail : Nat
  f_files : Nat
  f_ffree : Nat
  f_favail : Nat
  deriving DecidableEq, Repr

/-- What the module observes of the operating system during one call. -/
structure Env where
  /-- Result of `fopen(path, "r")`: the content of the file, or `none` when it does not open. -/
  fopen : List Char → Option (List Char)
  /-- Whether `opendir(path)` returns a directory handle. -/
  opendir : List Char → Bool
  /-- Result of `sysconf(_SC_NPROCESSORS_ONLN)`. -/
  nprocessors_onln : Int
  /-- Result of `statvfs(path, &buf)`: the statistics, or `none` when it returns -1. -/
  statvfs : List Char → Option statvfs_t := fun _ => none
  /-- Running `lxc-info -n <container> -p -P /var/lib/lxc` through the pipe: `none` when the
  pipe or the fork fails, otherwise the text read from the pipe and the value of `pclose`. -/
  lxc_info : List Char → Option (List Char × Int) := fun _ => none
  /-- The entry names `readdir` yields, in order, for a directory that opens. -/
  readdir : List Char → List (List Char) := fun _ => []
  /-- Result of `zbx_stat(path, &sb)`: `none` when it fails, otherwise `S_ISDIR(sb.st_mode)`. -/
  stat : List Char → Option Bool := fun _ => none
  /-- The host name that `gethostname` reports. -/
  hostname : List Char := []
  /-- Result of `unlink(path)`. -/
  unlink : List Char → Int := fun _ => 0

/-- The double that the C expression `100 * (double)num / den` evaluates to, kept as its two
unsigned integer operands: the floating-point operations are deterministic, so the double is a
function of the pair. -/
structure dbl_percent where
  num : Nat
  den : Nat
  deriving DecidableEq, Repr

/-- The part of Zabbix `AGENT_RESULT` the handlers write: the unsigned value, the floating-point
value, the string value and the message. -/
structure AGENT_RESULT where
  ui64 : Option Nat := none
  str : Option (List Char) := none
  msg : Option (List Char) := none
  dbl : Option dbl_percent := none
  deriving DecidableEq, Repr

/-- Zabbix `SET_UI64_RESULT`. -/
def SET_UI64_RESULT (result : AGENT_RESULT) (v : Nat) : AGENT_RESULT := { result with ui64 := some v }

/-- Zabbix `SET_DBL_RESULT`. -/
def SET_DBL_RESULT (result : AGENT_RESULT) (v : dbl_percent) : AGENT_RESULT :=
  { result with dbl := some v }

/-- Zabbix `SET_STR_RESULT`. -/
def SET_STR_RESULT (result : AGENT_RESULT) (v : List Char) : AGENT_RESULT :=
  { result with str := some v }

/-- Zabbix `SET_MSG_RESULT`. -/
def SET_MSG_RESULT (result : AGENT_RESULT) (m : List Char) : AGENT_RESULT :=
  { result with msg := some m }

/-- Zabbix `get_rparam(request, i)` for `i < request->nparam`. -/
def get_rparam (request : List (List Char)) (i : Nat) : List Char := request.getD i []

/-! ## `zbx_lxd_dir_detect` (lines 129-211) -/

/-- The array `drivers` (lines 133-136): the candidate `"lxc/"`, then the `""` entry on which the
loop `while (*tdriver != "")` stops. -/
def drivers : List (List Char) := [cstr "lxc/", cstr ""]

/-- Lines 184-198: with the driver found, probe `stat_dir ++ "cpu,cpuacct/"` and set
`cpu_cgroup`. -/
def detect_cpu_cgroup (env : Env) (g : Globals) (sd : List Char) : Nat × Globals :=
  let cgroup := cstr "cpu,cpuacct/"
  let ddir_size := strlen cgroup + strlen sd + 1
  let ddir := zbx_strlcat (zbx_strlcpy sd ddir_size) cgroup ddir_size
  if env.opendir ddir then (SYSINFO_RET_OK, { g with cpu_cgroup := some (cstr "cpu,cpuacct/") })
  else (SYSINFO_RET_OK, { g with cpu_cgroup := some (cstr "cpuacct/") })

/-- Lines 163-205: the loop `while (*tdriver != "")` over the driver candidates. The comparison is
one of pointers to string literals of this translation unit; identical literals share their
storage, so it is false exactly at the `""` entry, which ends the loop. -/
def detect_driver (env : Env) (g : Globals) (sd : List Char) : List (List Char) → Nat × Globals
  | [] => (SYSINFO_RET_FAIL, { g with driver := some (cstr "") })
  | tdriver :: rest =>
    if tdriver = cstr "" then (SYSINFO_RET_FAIL, { g with driver := some (cstr "") })
    else
      let cgroup := cstr "cpuset/"
      let ddir_size := strlen cgroup + strlen sd + strlen tdriver + 1
      let ddir := zbx_strlcat (zbx_strlcat (zbx_strlcpy sd ddir_size) cgroup ddir_size) tdriver
        ddir_size
      if env.opendir ddir then detect_cpu_cgroup env { g with driver := some tdriver } sd
      else detect_driver env g sd rest

/-- Lines 152-205: the body run for a buffer `path` that contains `"cpuset cgroup"`. `none` is
the abnormal end of the process when `strstr(temp1, " ")` is NULL and is handed to
`string_replace`. -/
def detect_found (env : Env) (g : Globals) (path : List Char) : Option (Nat × Globals) :=
  let temp1 := string_replace path (cstr "cgroup ") (cstr "")
  match strstr temp1 (cstr " ") with
  | none => none
  | some tail =>
    let temp2 := string_replace temp1 tail (cstr "")
    let sd := string_replace temp2 (cstr "cpuset") (cstr "")
    some (detect_driver env { g with stat_dir := some sd } sd drivers)

/-- Lines 148-210: the loop over the buffers read from `/proc/mounts`; the first buffer that
contains `"cpuset cgroup"` decides, and without one the function fails. -/
def detect_scan (env : Env) (g : Globals) : List (List Char) → Option (Nat × Globals)
  | [] => some (SYSINFO_RET_FAIL, g)
  | path :: rest =>
    match strstr path (cstr "cpuset cgroup") with
    | some _ => detect_found env g path
    | none => detect_scan env g rest

/-- The function `zbx_lxd_dir_detect`: return code and globals afterwards. -/
def zbx_lxd_dir_detect (env : Env) (g : Globals) : Option (Nat × Globals) :=
  match env.fopen (cstr "/proc/mounts") with
  | none => some (SYSINFO_RET_FAIL, g)
  | some mounts => detect_scan env g (fgets_all 512 mounts)

/-! ## Metric handlers -/

/-- The file name every handler builds (e.g. lines 254-261): `zbx_strlcpy` of `stat_dir`, then
`zbx_strlcat` of the controller, the driver, the container and the stat file, in a buffer of the
summed lengths plus 2. -/
def metric_filename (sd cgroup dr container stat_file : List Char) : List Char :=
  let filename_size := strlen cgroup + strlen container + strlen sd + strlen dr
    + strlen stat_file + 2
  zbx_strlcat (zbx_strlcat (zbx_strlcat (zbx_strlcat (zbx_strlcpy sd filename_size) cgroup
    filename_size) dr filename_size) container filename_size) stat_file filename_size

/-- Lines 251-276 of `zbx_module_lxd_up`: build the file name and try to open it. `none` is a
NULL pointer handed to `strlen`. -/
def up_probe (env : Env) (g : Globals) (request : List (List Char)) (result : AGENT_RESULT) :
    Option (Nat × AGENT_RESULT × Globals) :=
  match g.stat_dir, g.driver, g.cpu_cgroup with
  | some sd, some dr, some cgroup =>
    let container := get_rparam request 0
    let filename := metric_filename sd cgroup dr container (cstr "/cpuacct.stat")
    match env.fopen filename with
    | none => some (SYSINFO_RET_OK, SET_UI64_RESULT result 0, g)
    | some _ => some (SYSINFO_RET_OK, SET_UI64_RESULT result 1, g)
  | _, _, _ => none

/-- The handler `zbx_module_lxd_up` (lines 222-277). -/
def zbx_module_lxd_up (env : Env) (g : Globals) (request : List (List Char))
    (result : AGENT_RESULT) : Option (Nat × AGENT_RESULT × Globals) :=
  if request.length ≠ 1 then
    some (SYSINFO_RET_FAIL, SET_MSG_RESULT result (cstr "Invalid number of parameters"), g)
  else if g.stat_dir.isNone || g.driver.isNone then
    some (SYSINFO_RET_FAIL, SET_MSG_RESULT result
      (cstr "up check is not available at the moment - no stat directory"), g)
  else if g.cpu_cgroup.isNone then
    match zbx_lxd_dir_detect env g with
    | none => none
    | some (ret, g1) =>
      if ret = SYSINFO_RET_FAIL then
        some (SYSINFO_RET_FAIL, SET_MSG_RESULT result
          (cstr "up check is not available at the moment - no cpu_cgroup directory"), g1)
      else up_probe env g1 request result
  else up_probe env g request result

/-- The scanning loop of `zbx_module_lxd_mem` (lines 340-353) over the buffers read from the
file: `some value` when the loop leaves through `break` with `ret = SYSINFO_RET_OK`, `none` when
it runs to the end of the file. -/
def mem_loop (metric2 : List Char) : List (List Char) → Option Nat
  | [] => none
  | line :: rest =>
    if !strncmp_eq0 line metric2 (strlen metric2) then mem_loop metric2 rest
    else
      match sscanf_s_ui64 line with
      | none => mem_loop metric2 rest
      | some value => some value

/-- The handler `zbx_module_lxd_mem` (lines 291-364). -/
def zbx_module_lxd_mem (env : Env) (g : Globals) (request : List (List Char))
    (result : AGENT_RESULT) : Nat × AGENT_RESULT :=
  if request.length ≠ 2 then
    (SYSINFO_RET_FAIL, SET_MSG_RESULT result (cstr "Invalid number of parameters"))
  else
    match g.stat_dir, g.driver with
    | some sd, some dr =>
      let container := get_rparam request 0
      let metric := get_rparam request 1
      let filename := metric_filename sd (cstr "memory/") dr container (cstr "/memory.stat")
      match env.fopen filename with
      | none => (SYSINFO_RET_FAIL, SET_MSG_RESULT result (cstr "Cannot open memory.stat file"))
      | some file =>
        let metric2 := metric ++ cstr " "
        match mem_loop metric2 (fgets_all MAX_STRING_LEN file) with
        | some value => (SYSINFO_RET_OK, SET_UI64_RESULT result value)
        | none => (SYSINFO_RET_FAIL, SET_MSG_RESULT result
            (cstr "Cannot find a line with requested metric in memory.stat file"))
    | _, _ => (SYSINFO_RET_FAIL, SET_MSG_RESULT result
        (cstr "mem metrics are not available at the moment - no stat directory"))

/-- The value of `cpu_num = sysconf(_SC_NPROCESSORS_ONLN)` (line 463): the `long` result stored
into a `zbx_uint64_t`. -/
def cpu_num (env : Env) : Nat := (env.nprocessors_onln % 2 ^ 64).toNat

/-- Lines 462-466: `value /= cpu_num` when `1 < cpu_num`. -/
def cpu_normalize (env : Env) (value : Nat) : Nat :=
  if 1 < cpu_num env then value / cpu_num env else value

/-- The scanning loop of `zbx_module_lxd_cpu` (lines 452-471). -/
def cpu_loop (env : Env) (metric2 : List Char) : List (List Char) → Option Nat
  | [] => none
  | line :: rest =>
    if !strncmp_eq0 line metric2 (strlen metric2) then cpu_loop env metric2 rest
    else
      match sscanf_s_ui64 line with
      | none => cpu_loop env metric2 rest
      | some value => some (cpu_normalize env value)

/-- Lines 411-422 of `zbx_module_lxd_cpu`: the pair `(stat_file, cgroup)` chosen from the metric
name and `cpu_cgroup`. -/
def cpu_source (metric cpu_cgroup : List Char) : List Char × List Char :=
  if strcmp_eq0 metric (cstr "user") || strcmp_eq0 metric (cstr "system") then
    (cstr "/cpuacct.stat", cpu_cgroup)
  else if strchr_found cpu_cgroup ',' then (cstr "/cpu.stat", cpu_cgroup)
  else (cstr "/cpu.stat", cstr "cpu/")

/-- Lines 409-481 of `zbx_module_lxd_cpu`: choose the file, open it and scan it. `none` is a
NULL pointer handed to `strchr` or `strlen`. -/
def cpu_read (env : Env) (g : Globals) (request : List (List Char)) (result : AGENT_RESULT) :
    Option (Nat × AGENT_RESULT × Globals) :=
  match g.stat_dir, g.driver, g.cpu_cgroup with
  | some sd, some dr, some cpu_cgroup =>
    let container := get_rparam request 0
    let metric := get_rparam request 1
    let stat_file := (cpu_source metric cpu_cgroup).1
    let cgroup := (cpu_source metric cpu_cgroup).2
    let filename := metric_filename sd cgroup dr container stat_file
    match env.fopen filename with
    | none => some (SYSINFO_RET_FAIL, SET_MSG_RESULT result
        (cstr "Cannot open " ++ stat_file.drop 1 ++ cstr " file"), g)
    | some file =>
      let metric2 := metric ++ cstr " "
      match cpu_loop env metric2 (fgets_all MAX_STRING_LEN file) with
      | some value => some (SYSINFO_RET_OK, SET_UI64_RESULT result value, g)
      | none => some (SYSINFO_RET_FAIL, SET_MSG_RESULT result
          (cstr "Cannot find a line with requested metric in cpuacct.stat file"), g)
  | _, _, _ => none

/-- The handler `zbx_module_lxd_cpu` (lines 378-482). -/
def zbx_module_lxd_cpu (env : Env) (g : Globals) (request : List (List Char))
    (result : AGENT_RESULT) : Option (Nat × AGENT_RESULT × Globals) :=
  if request.length ≠ 2 then
    some (SYSINFO_RET_FAIL, SET_MSG_RESULT result (cstr "Invalid number of parameters"), g)
  else if g.stat_dir.isNone || g.driver.isNone then
    some (SYSINFO_RET_FAIL, SET_MSG_RESULT result
      (cstr "cpu metrics are not available at the moment - no stat directory"), g)
  else if g.cpu_cgroup.isNone then
    match zbx_lxd_dir_detect env g with
    | none => none
    | some (ret, g1) =>
      if ret = SYSINFO_RET_FAIL then
        some (SYSINFO_RET_FAIL, SET_MSG_RESULT result
          (cstr "cpu check is not available at the moment - no cpu_cgroup directory"), g1)
      else cpu_read env g1 request result
  else cpu_read env g request result

/-- The scanning loop of `zbx_module_lxd_dev` (lines 550-567): a matching line is scanned as two
columns, then as three; when both scans fail the loop is left through `break` with
`ret = SYSINFO_RET_FAIL`. -/
def dev_loop (metric2 : List Char) : List (List Char) → Option Nat
  | [] => none
  | line :: rest =>
    if !strncmp_eq0 line metric2 (strlen metric2) then dev_loop metric2 rest
    else
      match sscanf_s_ui64 line with
      | some value => some value
      | none =>
        match sscanf_s_s_ui64 line with
        | some value => some value
        | none => none

/-- The handler `zbx_module_lxd_dev` (lines 496-581). -/
def zbx_module_lxd_dev (env : Env) (g : Globals) (request : List (List Char))
    (result : AGENT_RESULT) : Nat × AGENT_RESULT :=
  if request.length ≠ 3 then
    (SYSINFO_RET_FAIL, SET_MSG_RESULT result (cstr "Invalid number of parameters"))
  else
    match g.stat_dir, g.driver with
    | some sd, some dr =>
      let container := get_rparam request 0
      let stat_file_size := strlen (get_rparam request 1) + 2
      let stat_file := zbx_strlcat (zbx_strlcpy (cstr "/") stat_file_size) (get_rparam request 1)
        stat_file_size
      let metric := get_rparam request 2
      let filename := metric_filename sd (cstr "blkio/") dr container stat_file
      match env.fopen filename with
      | none => (SYSINFO_RET_FAIL, SET_MSG_RESULT result
          (cstr "Cannot open stat file, maybe CONFIG_DEBUG_BLK_CGROUP is not enabled"))
      | some file =>
        let metric2 := metric ++ cstr " "
        match dev_loop metric2 (fgets_all MAX_STRING_LEN file) with
        | some value => (SYSINFO_RET_OK, SET_UI64_RESULT result value)
        | none => (SYSINFO_RET_FAIL, SET_MSG_RESULT result
            (cstr "Cannot find a line with requested metric in blkio file"))
    | _, _ => (SYSINFO_RET_FAIL, SET_MSG_RESULT result
        (cstr "dev metrics are not available at the moment - no stat directory"))

/-! ## `zbx_module_lxd_disk` (lines 596-798) -/

/-- The `int pid_t` left by `sscanf(buf, ZBX_FS_UI64, &pid_t)`: the low 32 bits of the scanned
value, read as a signed integer. -/
def to_int32 (v : Nat) : Int :=
  if v % 2 ^ 32 < 2 ^ 31 then ((v % 2 ^ 32 : Nat) : Int) else ((v % 2 ^ 32 : Nat) : Int) - 2 ^ 32

/-- Search for the least `k` from `k` on with `n <= 10 ^ k`. -/
def ceil_log10_from (n : Nat) : Nat → Nat → Nat
  | 0, k => k
  | fuel + 1, k => if n ≤ 10 ^ k then k else ceil_log10_from n fuel (k + 1)

/-- The value of `(int)ceil(log10(n))` for `n >= 1`, taken at its exact real value: the least `k`
with `n <= 10 ^ k`. -/
def ceil_log10 (n : Nat) : Nat := ceil_log10_from n n 0

/-- What `printf("%d", x)` prints. -/
def format_d (x : Int) : List Char :=
  if x < 0 then '-' :: Nat.toDigits 10 x.natAbs else Nat.toDigits 10 x.toNat

/-- Zabbix `zbx_snprintf(str, count, "%d", x)`: the formatted text cut to `count - 1`
characters. -/
def zbx_snprintf_d (count : Nat) (x : Int) : List Char := (format_d x).take (count - 1)

/-- Lines 646-648 (and 697-699): `size = (int)ceil(log10(abs(pid_t))) + 1`, then
`zbx_snprintf(pid, size, "%d", pid_t)`. `none` stands for the cases in which the size is not
defined (`log10(0)`, `abs(INT_MIN)`). -/
def pid_string (pid_t : Int) : Option (List Char) :=
  if pid_t = 0 ∨ pid_t = -(2 ^ 31) then none
  else some (zbx_snprintf_d (ceil_log10 pid_t.natAbs + 1) pid_t)

/-- Lines 643-650: the loop over the buffers read from `cgroup.procs`; every buffer that scans
as an integer overwrites `pid`, and the loop runs to the end of the file. The outer `none` is an
abnormal end. -/
def procs_loop : List (List Char) → Option (List Char) → Option (Option (List Char))
  | [], pid => some pid
  | buf :: rest, pid =>
    match scan_ui64 buf with
    | some v =>
      match pid_string (to_int32 v) with
      | none => none
      | some p => procs_loop rest (some p)
    | none => procs_loop rest pid

/-- Membership in the delimiter set `"PID:"` of `strtok`. -/
def is_pid_delim (c : Char) : Bool := c == 'P' || c == 'I' || c == 'D' || c == ':'

/-- Lines 692-702: the loop over the buffers read from the `lxc-info` pipe. `strtok(buf, "PID:")`
skips leading delimiters and ends the token at the next delimiter by a NUL; when a token exists
and does not start the buffer, the buffer (now ending with that token) is scanned with
`"%*s %lu"`. -/
def lxc_info_loop : List (List Char) → Option (List Char) → Option (Option (List Char))
  | [], pid => some pid
  | buf :: rest, pid =>
    let lead := buf.takeWhile is_pid_delim
    let tail := buf.dropWhile is_pid_delim
    if tail = [] ∨ lead = [] then lxc_info_loop rest pid
    else
      match sscanf_s_ui64 (lead ++ tail.takeWhile (fun c => !is_pid_delim c)) with
      | some v =>
        match pid_string (to_int32 v) with
        | none => none
        | some p => lxc_info_loop rest (some p)
      | none => lxc_info_loop rest pid

/-- Lines 736-791: the value for the metric name, computed from the `statvfs` result; products
are those of `unsigned long` operands. -/
def disk_metric (st : statvfs_t) (metric : List Char) (result : AGENT_RESULT) :
    Nat × AGENT_RESULT :=
  if strcmp_eq0 metric (cstr "size") then
    (SYSINFO_RET_OK, SET_UI64_RESULT result ((st.f_frsize * st.f_blocks) % 2 ^ 64))
  else if strcmp_eq0 metric (cstr "free") then
    (SYSINFO_RET_OK, SET_UI64_RESULT result ((st.f_bsize * st.f_bfree) % 2 ^ 64))
  else if strcmp_eq0 metric (cstr "pfree") then
    (SYSINFO_RET_OK, SET_DBL_RESULT result
      ⟨(st.f_bsize * st.f_bfree) % 2 ^ 64, (st.f_frsize * st.f_blocks) % 2 ^ 64⟩)
  else if strcmp_eq0 metric (cstr "avail") then
    (SYSINFO_RET_OK, SET_UI64_RESULT result ((st.f_bsize * st.f_bavail) % 2 ^ 64))
  else if strcmp_eq0 metric (cstr "pavail") then
    (SYSINFO_RET_OK, SET_DBL_RESULT result
      ⟨(st.f_bsize * st.f_bfree) % 2 ^ 64, (st.f_frsize * st.f_blocks) % 2 ^ 64⟩)
  else if strcmp_eq0 metric (cstr "inodes") then
    (SYSINFO_RET_OK, SET_UI64_RESULT result st.f_files)
  else if strcmp_eq0 metric (cstr "inodes_free") then
    (SYSINFO_RET_OK, SET_UI64_RESULT result st.f_ffree)
  else if strcmp_eq0 metric (cstr "inodes_pfree") then
    (SYSINFO_RET_OK, SET_DBL_RESULT result ⟨st.f_ffree, st.f_files⟩)
  else if strcmp_eq0 metric (cstr "inodes_avail") then
    (SYSINFO_RET_OK, SET_UI64_RESULT result st.f_favail)
  else if strcmp_eq0 metric (cstr "inodes_pavail") then
    (SYSINFO_RET_OK, SET_DBL_RESULT result ⟨st.f_favail, st.f_files⟩)
  else (SYSINFO_RET_FAIL, SET_MSG_RESULT result (cstr "Unknown metric"))

/-- Lines 720-725: the path handed to `statvfs`, built in a buffer of `12 + strlen(pid) + 1`
bytes. -/
def root_path (pid : List Char) : List Char :=
  let root_size := 12 + strlen pid + 1
  zbx_strlcat (zbx_strlcat (zbx_strlcpy (cstr "/proc/") root_size) pid root_size)
    (cstr "/root/") root_size

/-- Lines 720-797: with the PID string found, query `statvfs` on the root of the process and
compute the metric. -/
def disk_stat (env : Env) (pid metric : List Char) (result : AGENT_RESULT) :
    Nat × AGENT_RESULT :=
  match env.statvfs (root_path pid) with
  | none => (SYSINFO_RET_FAIL, SET_MSG_RESULT result
      (cstr "Failed to retrieve stats for process root"))
  | some st => disk_metric st metric result

/-- Lines 657-718: the fallback when `cgroup.procs` gave no PID: run `lxc-info`, scan its
output, check its exit status. The result is an early return of the handler (left) or the PID
string (right); `none` is an abnormal end. -/
def disk_lxc_info (env : Env) (container : List Char) (result : AGENT_RESULT) :
    Option ((Nat × AGENT_RESULT) ⊕ List Char) :=
  match env.lxc_info container with
  | none => some (Sum.inl
      (SYSINFO_RET_FAIL, SET_MSG_RESULT result (cstr "Invoking lxc-info failed")))
  | some (output, status) =>
    match lxc_info_loop (fgets_all 128 output) none with
    | none => none
    | some pid =>
      if status ≠ 0 then
        some (Sum.inl
          (SYSINFO_RET_FAIL, SET_MSG_RESULT result (cstr "lxc-info returned error status")))
      else
        match pid with
        | none => some (Sum.inl
            (SYSINFO_RET_FAIL, SET_MSG_RESULT result (cstr "Could not find process id")))
        | some p => some (Sum.inr p)

/-- Lines 641-718: find the PID string of the container, first from the file `filename`
(`cgroup.procs`), then from `lxc-info`. The result is an early return of the handler (left) or
the PID string (right); `none` is an abnormal end. -/
def disk_find_pid (env : Env) (filename container : List Char) (result : AGENT_RESULT) :
    Option ((Nat × AGENT_RESULT) ⊕ List Char) :=
  let step1 : Option (Option (List Char)) :=
    match env.fopen filename with
    | some file => procs_loop (fgets_all 128 file) none
    | none => some none
  match step1 with
  | none => none
  | some (some pid) => some (Sum.inr pid)
  | some none => disk_lxc_info env container result

/-- Lines 628-798 of `zbx_module_lxd_disk`: find the PID of the container, then the disk
metric. `none` is an abnormal end (a NULL pointer handed to `strlen`, an undefined buffer
size). -/
def disk_read (env : Env) (g : Globals) (request : List (List Char)) (result : AGENT_RESULT) :
    Option (Nat × AGENT_RESULT × Globals) :=
  match g.stat_dir, g.driver, g.cpu_cgroup with
  | some sd, some dr, some cpu_cgroup =>
    let container := get_rparam request 0
    let metric := get_rparam request 1
    let filename := metric_filename sd cpu_cgroup dr container
      (cstr "/ns/init.scope/cgroup.procs")
    match disk_find_pid env filename container result with
    | none => none
    | some (Sum.inl early) => some (early.1, early.2, g)
    | some (Sum.inr pid) =>
      some ((disk_stat env pid metric result).1, (disk_stat env pid metric result).2, g)
  | _, _, _ => none

/-- The handler `zbx_module_lxd_disk` (lines 596-798). -/
def zbx_module_lxd_disk (env : Env) (g : Globals) (request : List (List Char))
    (result : AGENT_RESULT) : Option (Nat × AGENT_RESULT × Globals) :=
  if request.length ≠ 2 then
    some (SYSINFO_RET_FAIL, SET_MSG_RESULT result (cstr "Invalid number of parameters"), g)
  else if g.stat_dir.isNone || g.driver.isNone then
    some (SYSINFO_RET_FAIL, SET_MSG_RESULT result
      (cstr "disk metrics are not available at the moment - no stat directory"), g)
  else if g.cpu_cgroup.isNone then
    match zbx_lxd_dir_detect env g with
    | none => none
    | some (ret, g1) =>
      if ret = SYSINFO_RET_FAIL then
        some (SYSINFO_RET_FAIL, SET_MSG_RESULT result
          (cstr "disk check is not available at the moment - no cpu_cgroup directory"), g1)
      else disk_read env g1 request result
  else disk_read env g request result

/-! ## `zbx_module_uninit` (lines 811-849) -/

/-- Zabbix `ZBX_MODULE_OK`. -/
def ZBX_MODULE_OK : Nat := 0

/-- The string `znetns_prefix` (line 815). -/
def znetns_prefix : List Char := cstr "zabbix_module_lxd_"

/-- Lines 825-840: the loop over the entries of `/var/run/netns`. The result lists the paths
handed to `unlink`, in order, and the entry names for which the failure warning is logged. -/
def uninit_loop (env : Env) : List (List Char) → List (List Char) × List (List Char)
  | [] => ([], [])
  | d_name :: rest =>
    if strcmp_eq0 d_name (cstr ".") || strcmp_eq0 d_name (cstr "..") then uninit_loop env rest
    else
      match strstr d_name znetns_prefix with
      | some _ =>
        let file := cstr "/var/run/netns/" ++ d_name
        if env.unlink file ≠ 0 then
          (file :: (uninit_loop env rest).1, d_name :: (uninit_loop env rest).2)
        else (file :: (uninit_loop env rest).1, (uninit_loop env rest).2)
      | none => uninit_loop env rest

/-- The function `zbx_module_uninit`: its return value, the paths handed to `unlink` and the
names with a logged `unlink` failure. -/
def zbx_module_uninit (env : Env) : Nat × List (List Char) × List (List Char) :=
  if env.opendir (cstr "/var/run/netns") then
    (ZBX_MODULE_OK, (uninit_loop env (env.readdir (cstr "/var/run/netns"))).1,
      (uninit_loop env (env.readdir (cstr "/var/run/netns"))).2)
  else (ZBX_MODULE_OK, [], [])

/-! ## `zbx_module_lxd_discovery` (lines 884-972) -/

/-- The JSON document built through `zbx_json_init`, `zbx_json_addarray(.., "data")`,
`zbx_json_addobject`, `zbx_json_addstring` and `zbx_json_close`: the objects of its `data`
array, each a list of name/value string pairs. -/
structure zbx_json where
  data : List (List (List Char × List Char))
  deriving DecidableEq, Repr

/-- One call of glibc `gethostname(buf, len)`: the name when it fits with its terminator,
`none` for the error return. -/
def gethostname (env : Env) (len : Nat) : Option (List Char) :=
  if strlen env.hostname + 1 ≤ len then some env.hostname else none

/-- Lines 922-937: the loop that doubles `hostname_len` until `gethostname` succeeds with a name
shorter than `hostname_len - 2`; `fuel` bounds the number of rounds. -/
def hostname_loop (env : Env) : Nat → Nat → Option (List Char)
  | 0, _ => none
  | fuel + 1, hostname_len =>
    match gethostname env (hostname_len - 1) with
    | some name =>
      if strlen name < hostname_len - 2 then some name
      else hostname_loop env fuel (hostname_len * 2)
    | none => hostname_loop env fuel (hostname_len * 2)

/-- Lines 939-956: the loop over the directory entries; every entry other than `.` and `..`
whose `zbx_stat` succeeds and shows a directory adds one object. -/
def discovery_loop (env : Env) (ddir hostname : List Char) :
    List (List Char) → List (List (List Char × List Char))
  | [] => []
  | d_name :: rest =>
    if strcmp_eq0 d_name (cstr ".") || strcmp_eq0 d_name (cstr "..") then
      discovery_loop env ddir hostname rest
    else
      match env.stat (ddir ++ cstr "/" ++ d_name) with
      | some true =>
        [(cstr "\x7b#HCONTAINERID\x7d", d_name), (cstr "\x7b#SYSTEM.HOSTNAME\x7d", hostname)]
          :: discovery_loop env ddir hostname rest
      | _ => discovery_loop env ddir hostname rest

/-- Lines 900-971 of `zbx_module_lxd_discovery`: open the container directory, find the host
name, list the containers. `buffer` is the text `j.buffer` that the Zabbix JSON library holds
for a document. -/
def discovery_list (buffer : zbx_json → List Char) (env : Env) (g : Globals)
    (result : AGENT_RESULT) : Option (Nat × AGENT_RESULT × Globals) :=
  match g.stat_dir, g.driver with
  | some sd, some dr =>
    let cgroup := cstr "cpuset/"
    let ddir_size := strlen cgroup + strlen sd + strlen dr + 2
    let ddir := zbx_strlcat (zbx_strlcat (zbx_strlcpy sd ddir_size) cgroup ddir_size) dr ddir_size
    if !env.opendir ddir then some (SYSINFO_RET_FAIL, result, g)
    else
      match hostname_loop env (strlen env.hostname + 1) 128 with
      | none => none
      | some hostname =>
        some (SYSINFO_RET_OK,
          SET_STR_RESULT result (buffer ⟨discovery_loop env ddir hostname (env.readdir ddir)⟩), g)
  | _, _ => none

/-- The handler `zbx_module_lxd_discovery` (lines 884-972). -/
def zbx_module_lxd_discovery (buffer : zbx_json → List Char) (env : Env) (g : Globals)
    (_request : List (List Char)) (result : AGENT_RESULT) :
    Option (Nat × AGENT_RESULT × Globals) :=
  if g.stat_dir.isNone then
    match zbx_lxd_dir_detect env g with
    | none => none
    | some (ret, g1) =>
      if ret = SYSINFO_RET_FAIL then
        some (SYSINFO_RET_FAIL, SET_STR_RESULT result (buffer ⟨[]⟩), g1)
      else discovery_list buffer env g1 result
  else discovery_list buffer env g result

/-! ## Specification-side notions -/

/-- The lines of a text, each with its terminating newline (the last one possibly without). -/
def file_lines : List Char → List (List Char)
  | [] => []
  | c :: cs =>
    if c = '\n' then [c] :: file_lines cs
    else
      match file_lines cs with
      | [] => [[c]]
      | l :: ls => (c :: l) :: ls

/-- The first white-space-delimited token of a line. -/
def first_token (line : List Char) : List Char :=
  (line.dropWhile isspace).takeWhile (fun x => !isspace x)

/-- The second white-space-delimited token of a line. -/
def second_token (line : List Char) : List Char :=
  first_token ((line.dropWhile isspace).dropWhile (fun x => !isspace x))

/-- The third white-space-delimited token of a line. -/
def third_token (line : List Char) : List Char :=
  second_token ((line.dropWhile isspace).dropWhile (fun x => !isspace x))

/-- The topology after a sequence of calls of `zbx_lxd_dir_detect`, one environment per call. -/
def detect_run : List Env → Globals → Option Globals
  | [], g => some g
  | env :: envs, g =>
    match zbx_lxd_dir_detect env g with
    | none => none
    | some (_, g1) => detect_run envs g1

/-- The mount table line of the cpuset controller used in the examples. -/
def cpuset_mount_line : List Char :=
  cstr "cgroup /sys/fs/cgroup/cpuset cgroup rw,nosuid,cpuset 0 0\n"

/-- Example host: the only file that opens is `/proc/mounts`, with the given content; `dirs`
says which directories open; one CPU is online. -/
def host_with_mounts (mounts : List Char) (dirs : List Char → Bool) : Env :=
  { fopen := fun p => if p = cstr "/proc/mounts" then some mounts else none,
    opendir := dirs,
    nprocessors_onln := 1 }

/-- Example host: the only file that opens is `path`, with the given content; no directory
opens; `n` CPUs are online. -/
def host_with_file (path content : List Char) (n : Int) : Env :=
  { fopen := fun p => if p = path then some content else none,
    opendir := fun _ => false,
    nprocessors_onln := n }

/-- Example topology: `/sys/fs/cgroup/`, driver `lxc/`, controller `cpuacct/`. -/
def lxc_topology : Globals :=
  ⟨some (cstr "/sys/fs/cgroup/"), some (cstr "lxc/"), some (cstr "cpuacct/")⟩

/-- Example `statvfs` result: 4096-byte blocks, 1000 blocks of which 400 are free and 300
available, 500 inodes of which 200 are free and 100 available. -/
def example_statvfs : statvfs_t :=
  { f_bsize := 4096, f_frsize := 4096, f_blocks := 1000, f_bfree := 400, f_bavail := 300,
    f_files := 500, f_ffree := 200, f_favail := 100 }

/-- Example host for the disk metrics: the file `/sys/fs/cgroup/cpuacct/lxc/c1/ns/init.scope/`
`cgroup.procs` opens with the content `procs`, and `statvfs` succeeds with `example_statvfs`
exactly on the path `root`. -/
def host_with_procs (procs root : List Char) : Env :=
  { fopen := fun p =>
      if p = cstr "/sys/fs/cgroup/cpuacct/lxc/c1/ns/init.scope/cgroup.procs" then some procs
      else none,
    opendir := fun _ => false,
    nprocessors_onln := 1,
    statvfs := fun p => if p = root then some example_statvfs else none }

/-- Example host for discovery and shutdown: every directory opens and lists `entries`,
`zbx_stat` answers as `stat` says, the host name is `web1`, and `unlink` fails on `failing`. -/
def host_with_entries (entries : List (List Char)) (stat : List Char → Option Bool)
    (failing : List Char) : Env :=
  { fopen := fun _ => none,
    opendir := fun _ => true,
    nprocessors_onln := 1,
    readdir := fun _ => entries,
    stat := stat,
    hostname := cstr "web1",
    unlink := fun p => if p = failing then -1 else 0 }

/-- Example rendering of a JSON document, used where a concrete text is needed: the names and
values of all objects, each followed by a semicolon, between brackets. -/
def example_buffer (j : zbx_json) : List Char :=
  cstr "[" ++ (j.data.map (fun o =>
      (o.map (fun kv => kv.1 ++ cstr "=" ++ kv.2 ++ cstr ";")).flatten)).flatten ++ cstr "]"

/-! ## Path building -/

theorem zbx_strlcpy_fits (src : List Char) (siz : Nat) (h : src.length < siz) :
    zbx_strlcpy src siz = src := by
  unfold zbx_strlcpy
  exact List.take_of_length_le (by omega)

theorem zbx_strlcat_fits (dst src : List Char) (siz : Nat)
    (h : dst.length + src.length < siz) : zbx_strlcat dst src siz = dst ++ src := by
  unfold zbx_strlcat strlen
  rw [zbx_strlcpy_fits src _ (by omega)]

theorem metric_filename_eq (sd cgroup dr container stat_file : List Char) :
    metric_filename sd cgroup dr container stat_file
      = sd ++ cgroup ++ dr ++ container ++ stat_file := by
  unfold metric_filename strlen
  simp only []
  rw [zbx_strlcpy_fits sd _ (by omega)]
  rw [zbx_strlcat_fits sd cgroup _ (by omega)]
  rw [zbx_strlcat_fits _ dr _ (by simp only [List.length_append]; omega)]
  rw [zbx_strlcat_fits _ container _ (by simp only [List.length_append]; omega)]
  rw [zbx_strlcat_fits _ stat_file _ (by simp only [List.length_append]; omega)]

/-! ## Reading a file line by line -/

theorem fgets_chunk_nil (room : Nat) : fgets_chunk room [] = ([], []) := by
  cases room <;> rfl

theorem fgets_chunk_line (s : List Char) (hs : s ≠ []) :
    ∃ l ls, file_lines s = l :: ls ∧ ∀ room, l.length ≤ room →
      (fgets_chunk room s).1 = l ∧ file_lines (fgets_chunk room s).2 = ls
        ∧ (fgets_chunk room s).2.length < s.length := by
  induction s with
  | nil => exact absurd rfl hs
  | cons c cs ih =>
    by_cases hc : c = '\n'
    · refine ⟨[c], file_lines cs, by simp [file_lines, hc], ?_⟩
      intro room hroom
      cases room with
      | zero => simp at hroom
      | succ r => simp [fgets_chunk, hc]
    · cases cs with
      | nil =>
        refine ⟨[c], [], by simp [file_lines, hc], ?_⟩
        intro room hroom
        cases room with
        | zero => simp at hroom
        | succ r => simp [fgets_chunk, hc, fgets_chunk_nil, file_lines]
      | cons d ds =>
        obtain ⟨l, ls, hl, hroom⟩ := ih (by simp)
        refine ⟨c :: l, ls, by rw [file_lines, if_neg hc, hl], ?_⟩
        intro room hr
        cases room with
        | zero => simp at hr
        | succ r =>
          have h3 := hroom r (by simpa using hr)
          simp only [fgets_chunk, hc, if_false]
          refine ⟨by rw [h3.1], h3.2.1, ?_⟩
          have := h3.2.2
          simp only [List.length_cons] at this ⊢
          omega

theorem fgets_loop_eq_lines (size : Nat) :
    ∀ (fuel : Nat) (s : List Char), s.length ≤ fuel →
      (∀ l ∈ file_lines s, l.length < size) → fgets_loop size fuel s = file_lines s := by
  intro fuel
  induction fuel with
  | zero =>
    intro s hs _
    have : s = [] := List.length_eq_zero.mp (by omega)
    subst this
    simp [fgets_loop, file_lines]
  | succ f ih =>
    intro s hs hfit
    cases s with
    | nil => simp [fgets_loop, file_lines]
    | cons c cs =>
      obtain ⟨l, ls, hl, hroom⟩ := fgets_chunk_line (c :: cs) (by simp)
      have hlen : l.length ≤ size - 1 := by
        have := hfit l (by rw [hl]; simp)
        omega
      obtain ⟨h1, h2, h3⟩ := hroom (size - 1) hlen
      simp only [fgets_loop]
      rw [h1, hl]
      congr 1
      rw [ih _ (by simp only [List.length_cons] at hs h3; omega) ?_, h2]
      intro l2 hl2
      rw [h2] at hl2
      exact hfit l2 (by rw [hl]; exact List.mem_cons_of_mem _ hl2)

/-- When every line fits the buffer, the buffers read by `fgets` are the lines of the file. -/
theorem fgets_all_eq_lines (size : Nat) (s : List Char)
    (hfit : ∀ l ∈ file_lines s, l.length < size) : fgets_all size s = file_lines s :=
  fgets_loop_eq_lines size s.length s (Nat.le_refl _) hfit

/-! ## Matching and scanning one line -/

theorem strncmp_eq0_iff (line metric2 : List Char) :
    strncmp_eq0 line metric2 (strlen metric2) = true ↔ metric2 <+: line := by
  unfold strncmp_eq0 strlen
  rw [List.take_length, beq_iff_eq]
  constructor
  · intro h
    rw [← h]
    exact List.take_prefix _ _
  · intro h
    exact List.prefix_iff_eq_take.mp h |>.symm

theorem isspace_cases (c : Char) (h : isspace c = true) :
    c = ' ' ∨ c = '\t' ∨ c = '\n' ∨ c = Char.ofNat 11 ∨ c = Char.ofNat 12 ∨ c = '\r' := by
  simpa [isspace, or_assoc] using h

theorem isspace_false_of_isdigit (c : Char) (hd : isdigit c = true) : isspace c = false := by
  cases hsp : isspace c with
  | false => rfl
  | true =>
    exfalso
    rcases isspace_cases c hsp with h | h | h | h | h | h <;> subst h <;> revert hd <;> decide

theorem takeWhile_isdigit_token (s : List Char) :
    (s.takeWhile (fun x => !isspace x)).takeWhile isdigit = s.takeWhile isdigit := by
  induction s with
  | nil => rfl
  | cons c cs ih =>
    by_cases hd : isdigit c = true
    · have hsp : isspace c = false := isspace_false_of_isdigit c hd
      simp [List.takeWhile, hd, hsp, ih]
    · by_cases hsp : isspace c = true <;> simp [List.takeWhile, hd, hsp]

theorem dropWhile_isspace_idem (s : List Char) :
    (s.dropWhile isspace).dropWhile isspace = s.dropWhile isspace := by
  induction s with
  | nil => rfl
  | cons c cs ih =>
    by_cases h : isspace c = true
    · simp [List.dropWhile, h, ih]
    · simp [List.dropWhile, h]

theorem scan_skip_space_idem (s : List Char) :
    scan_skip_space (scan_skip_space s) = scan_skip_space s :=
  dropWhile_isspace_idem s

theorem scan_ui64_skip_space (s : List Char) : scan_ui64 (scan_skip_space s) = scan_ui64 s := by
  unfold scan_ui64
  rw [scan_skip_space_idem]

theorem scan_skip_token_skip_space (s : List Char) :
    scan_skip_token (scan_skip_space s) = scan_skip_token s := by
  unfold scan_skip_token
  rw [scan_skip_space_idem]

theorem scan_digits_token (negative : Bool) (s : List Char) :
    scan_digits negative (s.takeWhile (fun x => !isspace x)) = scan_digits negative s := by
  unfold scan_digits
  rw [takeWhile_isdigit_token]

theorem dropWhile_isspace_head (s : List Char) (c : Char) (cs : List Char)
    (h : s.dropWhile isspace = c :: cs) : isspace c = false := by
  induction s with
  | nil => simp at h
  | cons d ds ih =>
    by_cases hd : isspace d = true
    · simp only [List.dropWhile, hd] at h
      exact ih h
    · simp only [List.dropWhile, hd] at h
      injection h with h1 h2
      subst h1
      simpa using hd

/-- Scanning a number reads no further than the end of the token it starts in. -/
theorem scan_ui64_first_token (s : List Char) : scan_ui64 (first_token s) = scan_ui64 s := by
  unfold first_token
  cases hY : s.dropWhile isspace with
  | nil => simp [scan_ui64, scan_skip_space, hY]
  | cons c cs =>
    have hc : isspace c = false := dropWhile_isspace_head s c cs hY
    have h1 : (c :: cs).takeWhile (fun x => !isspace x)
        = c :: cs.takeWhile (fun x => !isspace x) := by
      simp [List.takeWhile, hc]
    have h2 : scan_skip_space (c :: cs.takeWhile (fun x => !isspace x))
        = c :: cs.takeWhile (fun x => !isspace x) := by
      simp [scan_skip_space, List.dropWhile, hc]
    have h3 : scan_skip_space s = c :: cs := hY
    unfold scan_ui64
    rw [h1, h2, h3]
    by_cases hm : c = '-'
    · subst hm
      simp only []
      exact scan_digits_token true cs
    · by_cases hp : c = '+'
      · subst hp
        simp only []
        exact scan_digits_token false cs
      · have := scan_digits_token false (c :: cs)
        rw [h1] at this
        split
        · rename_i heq
          injection heq with e1 e2
          exact absurd e1 hm
        · rename_i heq
          injection heq with e1 e2
          exact absurd e1 hp
        · split
          · rename_i heq
            injection heq with e1 e2
            exact absurd e1 hm
          · rename_i heq
            injection heq with e1 e2
            exact absurd e1 hp
          · exact this

/-- The two-column scan `"%*s %lu"` reads the number at the start of the second token. -/
theorem sscanf_s_ui64_eq (line : List Char) :
    sscanf_s_ui64 line = scan_ui64 (second_token line) := by
  unfold sscanf_s_ui64 scan_skip_token second_token
  rw [scan_ui64_first_token]
  cases hY : scan_skip_space line with
  | nil =>
    have : line.dropWhile isspace = [] := hY
    simp [this, scan_ui64, scan_skip_space, scan_digits]
  | cons c cs =>
    have : line.dropWhile isspace = c :: cs := hY
    simp only [this]
    exact scan_ui64_skip_space _

/-- The three-column scan `"%*s %*s %lu"` reads the number at the start of the third token. -/
theorem sscanf_s_s_ui64_eq (line : List Char) :
    sscanf_s_s_ui64 line = scan_ui64 (third_token line) := by
  unfold third_token
  rw [← sscanf_s_ui64_eq]
  unfold sscanf_s_s_ui64 sscanf_s_ui64
  cases hY : scan_skip_token line with
  | none =>
    unfold scan_skip_token at hY
    cases hZ : scan_skip_space line with
    | nil =>
      have : line.dropWhile isspace = [] := hZ
      simp [this, scan_skip_token, scan_skip_space]
    | cons c cs => rw [hZ] at hY; simp at hY
  | some r =>
    unfold scan_skip_token at hY
    cases hZ : scan_skip_space line with
    | nil => rw [hZ] at hY; simp at hY
    | cons c cs =>
      rw [hZ] at hY
      have hZ2 : line.dropWhile isspace = c :: cs := hZ
      simp only [Option.some.injEq] at hY
      simp only [hZ2, hY]
      rw [scan_skip_token_skip_space]

/-! ## Tokens of a line -/

theorem dropWhile_nonspace_append (w r : List Char) (t : Char)
    (hw : ∀ c ∈ w, isspace c = false) (ht : isspace t = true) :
    (w ++ t :: r).dropWhile (fun x => !isspace x) = t :: r := by
  induction w with
  | nil => simp [List.dropWhile, ht]
  | cons c cs ih =>
    have hc := hw c (List.mem_cons_self _ _)
    simp only [List.cons_append, List.dropWhile, hc, Bool.not_false]
    exact ih (fun x hx => hw x (List.mem_cons_of_mem _ hx))

theorem takeWhile_nonspace_append (w r : List Char) (t : Char)
    (hw : ∀ c ∈ w, isspace c = false) (ht : isspace t = true) :
    (w ++ t :: r).takeWhile (fun x => !isspace x) = w := by
  induction w with
  | nil => simp [List.takeWhile, ht]
  | cons c cs ih =>
    have hc := hw c (List.mem_cons_self _ _)
    simp only [List.cons_append, List.takeWhile, hc, Bool.not_false]
    exact congrArg (c :: ·) (ih (fun x hx => hw x (List.mem_cons_of_mem _ hx)))

theorem dropWhile_isspace_token (w r : List Char) (hne : w ≠ [])
    (hw : ∀ c ∈ w, isspace c = false) : (w ++ r).dropWhile isspace = w ++ r := by
  cases w with
  | nil => exact absurd rfl hne
  | cons c cs =>
    have hc := hw c (List.mem_cons_self _ _)
    simp [List.dropWhile, hc]

theorem first_token_append (w r : List Char) (t : Char) (hne : w ≠ [])
    (hw : ∀ c ∈ w, isspace c = false) (ht : isspace t = true) :
    first_token (w ++ t :: r) = w := by
  unfold first_token
  rw [dropWhile_isspace_token w _ hne hw, takeWhile_nonspace_append w r t hw ht]

theorem first_token_space (r : List Char) (t : Char) (ht : isspace t = true) :
    first_token (t :: r) = first_token r := by
  unfold first_token
  simp [List.dropWhile, ht]

theorem second_token_append (w r : List Char) (t : Char) (hne : w ≠ [])
    (hw : ∀ c ∈ w, isspace c = false) (ht : isspace t = true) :
    second_token (w ++ t :: r) = first_token r := by
  unfold second_token
  rw [dropWhile_isspace_token w _ hne hw, dropWhile_nonspace_append w r t hw ht,
    first_token_space r t ht]

theorem second_token_space (r : List Char) (t : Char) (ht : isspace t = true) :
    second_token (t :: r) = second_token r := by
  unfold second_token
  simp [List.dropWhile, ht]

theorem third_token_append (w r : List Char) (t : Char) (hne : w ≠ [])
    (hw : ∀ c ∈ w, isspace c = false) (ht : isspace t = true) :
    third_token (w ++ t :: r) = second_token r := by
  unfold third_token
  rw [dropWhile_isspace_token w _ hne hw, dropWhile_nonspace_append w r t hw ht,
    second_token_space r t ht]

/-- A digit run followed by white space scans as its decimal value when that is below 2^64. -/
theorem scan_ui64_digits (ds : List Char) (hne : ds ≠ [])
    (hds : ∀ c ∈ ds, isdigit c = true) (hlt : digits_value ds < 2 ^ 64) :
    scan_ui64 ds = some (digits_value ds) := by
  cases ds with
  | nil => exact absurd rfl hne
  | cons c cs =>
    have hc := hds c (List.mem_cons_self _ _)
    have hsp := isspace_false_of_isdigit c hc
    have hskip : scan_skip_space (c :: cs) = c :: cs := by
      simp [scan_skip_space, List.dropWhile, hsp]
    have htake : (c :: cs).takeWhile isdigit = c :: cs :=
      List.takeWhile_eq_self_iff.mpr hds
    have hval : scan_digits false (c :: cs) = some (digits_value (c :: cs)) := by
      unfold scan_digits
      rw [htake]
      simp only [strtoul10]
      rw [if_neg (by omega)]
      simp
    unfold scan_ui64
    rw [hskip]
    have hm : c ≠ '-' := by
      intro h; subst h; revert hc; decide
    have hp : c ≠ '+' := by
      intro h; subst h; revert hc; decide
    split
    · rename_i heq
      injection heq with e1 e2
      exact absurd e1 hm
    · rename_i heq
      injection heq with e1 e2
      exact absurd e1 hp
    · exact hval

theorem digits_value_append (xs : List Char) (d : Char) :
    digits_value (xs ++ [d]) = 10 * digits_value xs + (d.toNat - '0'.toNat) := by
  unfold digits_value
  rw [List.foldl_append]
  rfl

theorem digitChar_isdigit (d : Nat) (hd : d < 10) :
    isdigit (Nat.digitChar d) = true ∧ (Nat.digitChar d).toNat - '0'.toNat = d := by
  interval_cases d <;> decide

theorem toDigitsCore_decimal : ∀ (fuel n : Nat) (ds : List Char), n < fuel →
    ∃ xs, Nat.toDigitsCore 10 fuel n ds = xs ++ ds ∧ xs ≠ []
      ∧ (∀ c ∈ xs, isdigit c = true) ∧ digits_value xs = n := by
  intro fuel
  induction fuel with
  | zero => intro n ds h; omega
  | succ f ih =>
    intro n ds h
    obtain ⟨hdig, hval⟩ := digitChar_isdigit (n % 10) (Nat.mod_lt _ (by decide))
    rw [Nat.toDigitsCore]
    by_cases h0 : n / 10 = 0
    · refine ⟨[Nat.digitChar (n % 10)], by simp [h0], by simp, by simpa using hdig, ?_⟩
      have : digits_value [Nat.digitChar (n % 10)]
          = (Nat.digitChar (n % 10)).toNat - '0'.toNat := by
        simp [digits_value]
      rw [this, hval]
      omega
    · obtain ⟨xs, h1, h2, h3, h4⟩ := ih (n / 10) (Nat.digitChar (n % 10) :: ds) (by omega)
      refine ⟨xs ++ [Nat.digitChar (n % 10)], by simp [h0, h1], by simp, ?_, ?_⟩
      · intro c hc
        rcases List.mem_append.mp hc with h5 | h5
        · exact h3 c h5
        · rw [List.mem_singleton.mp h5]
          exact hdig
      · rw [digits_value_append, h4, hval]
        omega

/-- The decimal representation of `n` is a non-empty digit run of value `n`. -/
theorem toDigits_decimal (n : Nat) :
    Nat.toDigits 10 n ≠ [] ∧ (∀ c ∈ Nat.toDigits 10 n, isdigit c = true)
      ∧ digits_value (Nat.toDigits 10 n) = n := by
  obtain ⟨xs, h1, h2, h3, h4⟩ := toDigitsCore_decimal (n + 1) n [] (by omega)
  rw [List.append_nil] at h1
  unfold Nat.toDigits
  rw [h1]
  exact ⟨h2, h3, h4⟩

/-- A prefix `sub ++ " "` of `w ++ " " ++ x`, where neither `sub` nor `w` has a space, forces
`w = sub`. -/
theorem space_terminated_eq (sub : List Char) :
    ∀ (w x : List Char), ' ' ∉ w → ' ' ∉ sub → (sub ++ [' ']) <+: (w ++ ' ' :: x) → w = sub := by
  induction sub with
  | nil =>
    intro w x hw _ hp
    cases w with
    | nil => rfl
    | cons c cs =>
      obtain ⟨t, ht⟩ := hp
      simp only [List.nil_append, List.cons_append, List.cons.injEq] at ht
      exact absurd (ht.1 ▸ List.mem_cons_self _ _) hw
  | cons s ss ih =>
    intro w x hw hs hp
    cases w with
    | nil =>
      obtain ⟨t, ht⟩ := hp
      simp only [List.nil_append, List.cons_append, List.cons.injEq] at ht
      exact absurd (ht.1 ▸ List.mem_cons_self _ _) hs
    | cons c cs =>
      obtain ⟨t, ht⟩ := hp
      simp only [List.cons_append, List.cons.injEq] at ht
      have := ih cs x (fun h => hw (List.mem_cons_of_mem _ h))
        (fun h => hs (List.mem_cons_of_mem _ h)) ⟨t, ht.2⟩
      rw [ht.1, this]

/-! ## The scanning loops -/

theorem mem_loop_eq_findSome (metric : List Char) (ls : List (List Char)) :
    mem_loop (metric ++ cstr " ") ls
      = ls.findSome? (fun l =>
          if (metric ++ cstr " ") <+: l then scan_ui64 (second_token l) else none) := by
  induction ls with
  | nil => rfl
  | cons l rest ih =>
    unfold mem_loop
    by_cases hm : (metric ++ cstr " ") <+: l
    · have := (strncmp_eq0_iff l (metric ++ cstr " ")).mpr hm
      rw [this, List.findSome?_cons, if_pos hm, ← sscanf_s_ui64_eq]
      cases hsc : sscanf_s_ui64 l with
      | none => simpa using ih
      | some v => simp
    · have : strncmp_eq0 l (metric ++ cstr " ") (strlen (metric ++ cstr " ")) = false := by
        cases h : strncmp_eq0 l (metric ++ cstr " ") (strlen (metric ++ cstr " ")) with
        | false => rfl
        | true => exact absurd ((strncmp_eq0_iff _ _).mp h) hm
      rw [this, List.findSome?_cons, if_neg hm]
      simpa using ih

theorem cpu_loop_skip (env : Env) (metric2 : List Char) (pre rest : List (List Char))
    (hpre : ∀ l ∈ pre, ¬ (metric2 <+: l) ∨ sscanf_s_ui64 l = none) :
    cpu_loop env metric2 (pre ++ rest) = cpu_loop env metric2 rest := by
  induction pre with
  | nil => rfl
  | cons l ls ih =>
    have ih2 := ih (fun x hx => hpre x (List.mem_cons_of_mem _ hx))
    rw [List.cons_append, cpu_loop]
    rcases hpre l (List.mem_cons_self _ _) with h | h
    · have : strncmp_eq0 l metric2 (strlen metric2) = false := by
        cases h2 : strncmp_eq0 l metric2 (strlen metric2) with
        | false => rfl
        | true => exact absurd ((strncmp_eq0_iff _ _).mp h2) h
      simp [this, ih2]
    · rw [h]
      simp [ih2]

theorem strncmp_eq0_false (line metric2 : List Char) (h : ¬ metric2 <+: line) :
    strncmp_eq0 line metric2 (strlen metric2) = false := by
  cases h2 : strncmp_eq0 line metric2 (strlen metric2) with
  | false => rfl
  | true => exact absurd ((strncmp_eq0_iff _ _).mp h2) h

theorem mem_loop_cons_skip (metric2 line : List Char) (rest : List (List Char))
    (h : ¬ metric2 <+: line) : mem_loop metric2 (line :: rest) = mem_loop metric2 rest := by
  rw [mem_loop, strncmp_eq0_false line metric2 h]
  rfl

theorem cpu_loop_cons_skip (env : Env) (metric2 line : List Char) (rest : List (List Char))
    (h : ¬ metric2 <+: line) :
    cpu_loop env metric2 (line :: rest) = cpu_loop env metric2 rest := by
  rw [cpu_loop, strncmp_eq0_false line metric2 h]
  rfl

theorem dev_loop_cons_skip (metric2 line : List Char) (rest : List (List Char))
    (h : ¬ metric2 <+: line) : dev_loop metric2 (line :: rest) = dev_loop metric2 rest := by
  rw [dev_loop, strncmp_eq0_false line metric2 h]
  rfl

theorem dev_loop_skip (metric2 : List Char) (pre rest : List (List Char))
    (hpre : ∀ l ∈ pre, ¬ metric2 <+: l) :
    dev_loop metric2 (pre ++ rest) = dev_loop metric2 rest := by
  induction pre with
  | nil => rfl
  | cons l ls ih =>
    rw [List.cons_append, dev_loop_cons_skip _ _ _ (hpre l (List.mem_cons_self _ _))]
    exact ih (fun x hx => hpre x (List.mem_cons_of_mem _ hx))

theorem dev_loop_none (metric2 : List Char) (ls : List (List Char))
    (h : ∀ l ∈ ls, ¬ metric2 <+: l) : dev_loop metric2 ls = none := by
  have := dev_loop_skip metric2 ls [] h
  rw [List.append_nil] at this
  rw [this]
  rfl

theorem not_space_of_isspace_false (w : List Char) (hw : ∀ c ∈ w, isspace c = false) :
    ' ' ∉ w := by
  intro h
  have := hw ' ' h
  revert this
  decide

/-! ## The stat-file readers: claims C1 to C6 -/

/-- C1: with the topology resolved and `memory.stat` opening with a content whose lines all
fit the read buffer, `zbx_module_lxd_mem` returns OK with the value scanned from the second
token of the first line that starts with the metric name followed by one space and whose second
token scans as an unsigned integer; when there is no such line it returns FAIL with the message
"Cannot find a line with requested metric in memory.stat file". -/
theorem mem_first_scanned_line (env : Env) (sd dr : List Char) (cg : Option (List Char))
    (id metric file : List Char) (result : AGENT_RESULT)
    (hopen : env.fopen (sd ++ cstr "memory/" ++ dr ++ id ++ cstr "/memory.stat") = some file)
    (hfit : ∀ l ∈ file_lines file, l.length < MAX_STRING_LEN) :
    zbx_module_lxd_mem env ⟨some sd, some dr, cg⟩ [id, metric] result =
      match (file_lines file).findSome? (fun l =>
          if (metric ++ cstr " ") <+: l then scan_ui64 (second_token l) else none) with
      | some v => (SYSINFO_RET_OK, SET_UI64_RESULT result v)
      | none => (SYSINFO_RET_FAIL, SET_MSG_RESULT result
          (cstr "Cannot find a line with requested metric in memory.stat file")) := by
  unfold zbx_module_lxd_mem
  simp only [List.length_cons, List.length_nil, ne_eq, not_true_eq_false, if_false,
    get_rparam, List.getD_cons_zero, List.getD_cons_succ, metric_filename_eq, hopen]
  rw [fgets_all_eq_lines _ _ hfit, mem_loop_eq_findSome]

/-- Witness of C1: the content `foo 42` / `bar 7` gives 7 for `bar` and the not-found failure
for `baz`. -/
theorem mem_first_scanned_line_witness :
    zbx_module_lxd_mem
        (host_with_file (cstr "/sys/fs/cgroup/memory/lxc/c1/memory.stat")
          (cstr "foo 42\nbar 7\n") 1)
        ⟨some (cstr "/sys/fs/cgroup/"), some (cstr "lxc/"), none⟩ [cstr "c1", cstr "bar"] {}
      = (SYSINFO_RET_OK, { ui64 := some 7 })
    ∧ zbx_module_lxd_mem
        (host_with_file (cstr "/sys/fs/cgroup/memory/lxc/c1/memory.stat")
          (cstr "foo 42\nbar 7\n") 1)
        ⟨some (cstr "/sys/fs/cgroup/"), some (cstr "lxc/"), none⟩ [cstr "c1", cstr "baz"] {}
      = (SYSINFO_RET_FAIL,
          { msg := some (cstr "Cannot find a line with requested metric in memory.stat file") }) :=
  ⟨(mem_first_scanned_line _ (cstr "/sys/fs/cgroup/") (cstr "lxc/") none (cstr "c1") (cstr "bar")
      (cstr "foo 42\nbar 7\n") {} (by decide) (by decide)).trans (by decide),
   (mem_first_scanned_line _ (cstr "/sys/fs/cgroup/") (cstr "lxc/") none (cstr "c1") (cstr "baz")
      (cstr "foo 42\nbar 7\n") {} (by decide) (by decide)).trans (by decide)⟩

/-- C2: with `stat_dir`, `driver` and `cpu_cgroup` set, `zbx_module_lxd_up` called with one
parameter returns SYSINFO_RET_OK, leaves the globals and the message untouched and sets the
value 1 when `stat_dir ++ cpu_cgroup ++ driver ++ id ++ "/cpuacct.stat"` opens, 0 when not. -/
theorem up_resolved_ok (env : Env) (sd dr cg id : List Char) (result : AGENT_RESULT) :
    zbx_module_lxd_up env ⟨some sd, some dr, some cg⟩ [id] result =
      some (SYSINFO_RET_OK,
        SET_UI64_RESULT result
          (if (env.fopen (sd ++ cg ++ dr ++ id ++ cstr "/cpuacct.stat")).isSome then 1 else 0),
        ⟨some sd, some dr, some cg⟩) := by
  unfold zbx_module_lxd_up up_probe
  simp only [List.length_cons, List.length_nil, ne_eq, not_true_eq_false, if_false,
    get_rparam, List.getD_cons_zero, metric_filename_eq, Option.isNone_some, Bool.or_self,
    Bool.false_eq_true]
  cases env.fopen (sd ++ cg ++ dr ++ id ++ cstr "/cpuacct.stat") <;> rfl

/-- C3: when the first line of the CPU stat file that matches and scans gives the value `v`
and the OS reports `n >= 1` online CPUs, `zbx_module_lxd_cpu` returns OK with `v / n`
(truncating division) when `n > 1` and with `v` when `n = 1`. -/
theorem cpu_value_normalized (env : Env) (sd dr cg id metric file : List Char)
    (result : AGENT_RESULT) (pre post : List (List Char)) (line : List Char) (v n : Nat)
    (hn : 1 ≤ n) (hlong : n < 2 ^ 63) (hcpu : env.nprocessors_onln = (n : Int))
    (hopen : env.fopen (sd ++ (cpu_source metric cg).2 ++ dr ++ id ++ (cpu_source metric cg).1)
      = some file)
    (hsplit : fgets_all MAX_STRING_LEN file = pre ++ line :: post)
    (hpre : ∀ l ∈ pre, ¬ ((metric ++ cstr " ") <+: l) ∨ sscanf_s_ui64 l = none)
    (hmatch : (metric ++ cstr " ") <+: line) (hscan : sscanf_s_ui64 line = some v) :
    zbx_module_lxd_cpu env ⟨some sd, some dr, some cg⟩ [id, metric] result =
      some (SYSINFO_RET_OK, SET_UI64_RESULT result (if 1 < n then v / n else v),
        ⟨some sd, some dr, some cg⟩) := by
  have hnum : cpu_num env = n := by
    unfold cpu_num
    rw [hcpu]
    have h64 : ((2 : Int) ^ 64) = ((2 ^ 64 : Nat) : Int) := by norm_num
    rw [h64, ← Int.natCast_mod, Int.toNat_natCast]
    exact Nat.mod_eq_of_lt (by omega)
  unfold zbx_module_lxd_cpu cpu_read
  simp only [List.length_cons, List.length_nil, ne_eq, not_true_eq_false, if_false,
    get_rparam, List.getD_cons_zero, List.getD_cons_succ, metric_filename_eq,
    Option.isNone_some, Bool.or_self, Bool.false_eq_true, hopen, hsplit]
  rw [cpu_loop_skip env _ pre _ hpre, cpu_loop, (strncmp_eq0_iff _ _).mpr hmatch, hscan]
  simp [cpu_normalize, hnum]

/-- Witness of C3: the line `user 800` gives 200 on a host with 4 online CPUs and 800 on a host
with one. -/
theorem cpu_value_normalized_witness :
    zbx_module_lxd_cpu
        (host_with_file (cstr "/sys/fs/cgroup/cpuacct/lxc/c1/cpuacct.stat")
          (cstr "user 800\nsystem 80\n") 4)
        lxc_topology [cstr "c1", cstr "user"] {}
      = some (SYSINFO_RET_OK, { ui64 := some 200 }, lxc_topology)
    ∧ zbx_module_lxd_cpu
        (host_with_file (cstr "/sys/fs/cgroup/cpuacct/lxc/c1/cpuacct.stat")
          (cstr "user 800\nsystem 80\n") 1)
        lxc_topology [cstr "c1", cstr "user"] {}
      = some (SYSINFO_RET_OK, { ui64 := some 800 }, lxc_topology) :=
  ⟨(cpu_value_normalized _ (cstr "/sys/fs/cgroup/") (cstr "lxc/") (cstr "cpuacct/") (cstr "c1")
      (cstr "user") (cstr "user 800\nsystem 80\n") {} [] [cstr "system 80\n"] (cstr "user 800\n")
      800 4 (by decide) (by decide) rfl (by decide) (by decide) (by decide) (by decide)
      (by decide)).trans (by decide),
   (cpu_value_normalized _ (cstr "/sys/fs/cgroup/") (cstr "lxc/") (cstr "cpuacct/") (cstr "c1")
      (cstr "user") (cstr "user 800\nsystem 80\n") {} [] [cstr "system 80\n"] (cstr "user 800\n")
      800 1 (by decide) (by decide) rfl (by decide) (by decide) (by decide) (by decide)
      (by decide)).trans (by decide)⟩

/-- The three-column line `d m ds` with a digit run `ds`: read with the name `d m` the value of
`ds` is returned, read with the name `m` no line matches. -/
theorem dev_three_column_digits (env : Env) (sd dr : List Char) (cg : Option (List Char))
    (id stat d m ds file : List Char) (pre post : List (List Char)) (result : AGENT_RESULT)
    (hd : d ≠ []) (hdws : ∀ c ∈ d, isspace c = false)
    (hm : m ≠ []) (hmws : ∀ c ∈ m, isspace c = false) (hmnum : scan_ui64 m = none)
    (hdm : d ≠ m)
    (hds : ds ≠ []) (hdig : ∀ c ∈ ds, isdigit c = true) (hval : digits_value ds < 2 ^ 64)
    (hopen : env.fopen (sd ++ cstr "blkio/" ++ dr ++ id ++ (cstr "/" ++ stat)) = some file)
    (hlines : file_lines file
      = pre ++ (d ++ cstr " " ++ m ++ cstr " " ++ ds ++ cstr "\n") :: post)
    (hfit : ∀ l ∈ file_lines file, l.length < MAX_STRING_LEN)
    (hother : ∀ l ∈ pre ++ post, ¬ m <:+: l) :
    zbx_module_lxd_dev env ⟨some sd, some dr, cg⟩ [id, stat, d ++ cstr " " ++ m] result
        = (SYSINFO_RET_OK, SET_UI64_RESULT result (digits_value ds))
    ∧ zbx_module_lxd_dev env ⟨some sd, some dr, cg⟩ [id, stat, m] result
        = (SYSINFO_RET_FAIL, SET_MSG_RESULT result
            (cstr "Cannot find a line with requested metric in blkio file")) := by
  have hL : d ++ cstr " " ++ m ++ cstr " " ++ ds ++ cstr "\n"
      = d ++ ' ' :: (m ++ ' ' :: (ds ++ ['\n'])) := by
    simp [cstr]
  have hsp : isspace ' ' = true := by decide
  have hnl : isspace '\n' = true := by decide
  have hdsws : ∀ c ∈ ds, isspace c = false := fun c hc => isspace_false_of_isdigit c (hdig c hc)
  have hstat : zbx_strlcat (zbx_strlcpy (cstr "/") (strlen stat + 2)) stat (strlen stat + 2)
      = cstr "/" ++ stat := by
    rw [zbx_strlcpy_fits _ _ (by simp [strlen, cstr]),
      zbx_strlcat_fits _ _ _ (by simp [strlen, cstr]; omega)]
  rw [hL] at hlines
  constructor
  · unfold zbx_module_lxd_dev
    simp only [List.length_cons, List.length_nil, ne_eq, not_true_eq_false, if_false,
      get_rparam, List.getD_cons_zero, List.getD_cons_succ, metric_filename_eq, hstat, hopen]
    rw [fgets_all_eq_lines _ _ hfit, hlines]
    have hpre : ∀ l ∈ pre, ¬ (d ++ cstr " " ++ m ++ cstr " ") <+: l := by
      intro l hl hp
      apply hother l (List.mem_append_left _ hl)
      obtain ⟨t, ht⟩ := hp
      exact ⟨d ++ cstr " ", cstr " " ++ t, by rw [← ht]; simp⟩
    rw [dev_loop_skip _ pre _ hpre, dev_loop]
    have hmatch : (d ++ cstr " " ++ m ++ cstr " ") <+: (d ++ ' ' :: (m ++ ' ' :: (ds ++ ['\n']))) :=
      ⟨ds ++ ['\n'], by simp [cstr]⟩
    rw [(strncmp_eq0_iff _ _).mpr hmatch]
    have h2 : sscanf_s_ui64 (d ++ ' ' :: (m ++ ' ' :: (ds ++ ['\n']))) = none := by
      rw [sscanf_s_ui64_eq, second_token_append d _ ' ' hd hdws hsp,
        first_token_append m _ ' ' hm hmws hsp, hmnum]
    have h3 : sscanf_s_s_ui64 (d ++ ' ' :: (m ++ ' ' :: (ds ++ ['\n'])))
        = some (digits_value ds) := by
      rw [sscanf_s_s_ui64_eq, third_token_append d _ ' ' hd hdws hsp,
        second_token_append m _ ' ' hm hmws hsp, first_token_append ds [] '\n' hds hdsws hnl,
        scan_ui64_digits ds hds hdig hval]
    rw [h2, h3]
    rfl
  · unfold zbx_module_lxd_dev
    simp only [List.length_cons, List.length_nil, ne_eq, not_true_eq_false, if_false,
      get_rparam, List.getD_cons_zero, List.getD_cons_succ, metric_filename_eq, hstat, hopen]
    rw [fgets_all_eq_lines _ _ hfit, hlines]
    have hnone : dev_loop (m ++ cstr " ") (pre ++ (d ++ ' ' :: (m ++ ' ' :: (ds ++ ['\n']))) :: post)
        = none := by
      apply dev_loop_none
      intro l hl hp
      rcases List.mem_append.mp hl with h | h
      · exact hother l (List.mem_append_left _ h) (List.IsInfix.trans
          ⟨[], cstr " ", by simp⟩ hp.isInfix)
      · rcases List.mem_cons.mp h with h | h
        · subst h
          exact hdm (space_terminated_eq m d _ (not_space_of_isspace_false d hdws)
            (not_space_of_isspace_false m hmws) hp)
        · exact hother l (List.mem_append_right _ h) (List.IsInfix.trans
            ⟨[], cstr " ", by simp⟩ hp.isInfix)
    rw [hnone]

/-- C4 (amended): on a blkio file whose lines fit the buffer and whose only line containing the
metric name `m` is the three-column line `d m n` (`n` below 2^64 in decimal), the handler
`zbx_module_lxd_dev` returns OK with the third token `n` when it is called with the
device-qualified name `d m`; called with the bare name `m` it finds no matching line and
returns the not-found failure. -/
theorem dev_three_column_line (env : Env) (sd dr : List Char) (cg : Option (List Char))
    (id stat d m file : List Char) (pre post : List (List Char)) (result : AGENT_RESULT)
    (n : Nat) (hn : n < 2 ^ 64)
    (hd : d ≠ []) (hdws : ∀ c ∈ d, isspace c = false)
    (hm : m ≠ []) (hmws : ∀ c ∈ m, isspace c = false) (hmnum : scan_ui64 m = none)
    (hdm : d ≠ m)
    (hopen : env.fopen (sd ++ cstr "blkio/" ++ dr ++ id ++ (cstr "/" ++ stat)) = some file)
    (hlines : file_lines file
      = pre ++ (d ++ cstr " " ++ m ++ cstr " " ++ Nat.toDigits 10 n ++ cstr "\n") :: post)
    (hfit : ∀ l ∈ file_lines file, l.length < MAX_STRING_LEN)
    (hother : ∀ l ∈ pre ++ post, ¬ m <:+: l) :
    zbx_module_lxd_dev env ⟨some sd, some dr, cg⟩ [id, stat, d ++ cstr " " ++ m] result
        = (SYSINFO_RET_OK, SET_UI64_RESULT result n)
    ∧ zbx_module_lxd_dev env ⟨some sd, some dr, cg⟩ [id, stat, m] result
        = (SYSINFO_RET_FAIL, SET_MSG_RESULT result
            (cstr "Cannot find a line with requested metric in blkio file")) := by
  obtain ⟨h1, h2, h3⟩ := toDigits_decimal n
  have h := dev_three_column_digits env sd dr cg id stat d m (Nat.toDigits 10 n) file pre post
    result hd hdws hm hmws hmnum hdm h1 h2 (by rw [h3]; exact hn) hopen hlines hfit hother
  rw [h3] at h
  exact h

/-- Witness of C4 (amended): the file `8:0 Read 100` read with the name `8:0 Read` gives 100, and
with the name `Read` the not-found failure. -/
theorem dev_three_column_line_witness :
    zbx_module_lxd_dev
        (host_with_file (cstr "/sys/fs/cgroup/blkio/lxc/c1/blkio.throttle.io_serviced")
          (cstr "8:0 Read 100\n") 1)
        ⟨some (cstr "/sys/fs/cgroup/"), some (cstr "lxc/"), none⟩
        [cstr "c1", cstr "blkio.throttle.io_serviced", cstr "8:0" ++ cstr " " ++ cstr "Read"] {}
      = (SYSINFO_RET_OK, SET_UI64_RESULT {} 100)
    ∧ zbx_module_lxd_dev
        (host_with_file (cstr "/sys/fs/cgroup/blkio/lxc/c1/blkio.throttle.io_serviced")
          (cstr "8:0 Read 100\n") 1)
        ⟨some (cstr "/sys/fs/cgroup/"), some (cstr "lxc/"), none⟩
        [cstr "c1", cstr "blkio.throttle.io_serviced", cstr "Read"] {}
      = (SYSINFO_RET_FAIL, SET_MSG_RESULT {}
          (cstr "Cannot find a line with requested metric in blkio file")) :=
  dev_three_column_line _ (cstr "/sys/fs/cgroup/") (cstr "lxc/") none (cstr "c1")
    (cstr "blkio.throttle.io_serviced") (cstr "8:0") (cstr "Read") (cstr "8:0 Read 100\n") [] []
    {} 100 (by decide) (by decide) (by decide) (by decide) (by decide) (by decide) (by decide)
    (by decide) (by decide) (by decide) (by simp)

/-- C4 (counterexample): on the one-line blkio file `8:0 Read 100`, `zbx_module_lxd_dev` called
with the metric name `Read` does not return 100 but the not-found failure, because the line
does not begin with `Read` and a space. -/
theorem dev_bare_metric_counterexample :
    zbx_module_lxd_dev
        (host_with_file (cstr "/sys/fs/cgroup/blkio/lxc/c1/blkio.throttle.io_serviced")
          (cstr "8:0 Read 100\n") 1)
        lxc_topology [cstr "c1", cstr "blkio.throttle.io_serviced", cstr "Read"] {}
      = (SYSINFO_RET_FAIL,
          { msg := some (cstr "Cannot find a line with requested metric in blkio file") }) := by
  decide

/-- C5 (amended): the three readers treat a line as a match exactly when it begins with the
metric name followed by one space (a line failing that test is passed over by each loop); for a
non-empty metric name without white space every matching line has the metric name as its first
white-space-delimited token. The converse is not claimed. -/
theorem line_match_is_prefix_test (env : Env) (metric line : List Char)
    (rest : List (List Char)) :
    (strncmp_eq0 line (metric ++ cstr " ") (strlen (metric ++ cstr " ")) = true
        ↔ (metric ++ cstr " ") <+: line)
    ∧ (¬ (metric ++ cstr " ") <+: line →
        mem_loop (metric ++ cstr " ") (line :: rest) = mem_loop (metric ++ cstr " ") rest
        ∧ cpu_loop env (metric ++ cstr " ") (line :: rest)
            = cpu_loop env (metric ++ cstr " ") rest
        ∧ dev_loop (metric ++ cstr " ") (line :: rest) = dev_loop (metric ++ cstr " ") rest)
    ∧ (metric ≠ [] → (∀ c ∈ metric, isspace c = false) → (metric ++ cstr " ") <+: line →
        first_token line = metric) := by
  refine ⟨strncmp_eq0_iff _ _, ?_, ?_⟩
  · intro h
    exact ⟨mem_loop_cons_skip _ _ _ h, cpu_loop_cons_skip env _ _ _ h, dev_loop_cons_skip _ _ _ h⟩
  · intro hne hws hp
    obtain ⟨t, ht⟩ := hp
    rw [← ht]
    have : metric ++ cstr " " ++ t = metric ++ ' ' :: t := by simp [cstr]
    rw [this]
    exact first_token_append metric t ' ' hne hws (by decide)

/-- Witness of C5 (amended): the line `bar 7` against the metric `bar` and against `ba`. -/
theorem line_match_is_prefix_test_witness :
    first_token (cstr "bar 7\n") = cstr "bar"
    ∧ mem_loop (cstr "ba" ++ cstr " ") [cstr "bar 7\n"] = mem_loop (cstr "ba" ++ cstr " ") [] :=
  ⟨(line_match_is_prefix_test (host_with_mounts [] (fun _ => false)) (cstr "bar")
      (cstr "bar 7\n") []).2.2 (by decide) (by decide) (by decide),
   ((line_match_is_prefix_test (host_with_mounts [] (fun _ => false)) (cstr "ba")
      (cstr "bar 7\n") []).2.1 (by decide)).1⟩

/-- C5 (counterexample): the first white-space-delimited token of the line `foo<TAB>42` equals
the metric name `foo` and its second token scans as 42, yet no reader treats the line as a
match: the test is for `foo` followed by a space. -/
theorem first_token_match_counterexample :
    first_token (cstr "foo\t42\n") = cstr "foo"
    ∧ sscanf_s_ui64 (cstr "foo\t42\n") = some 42
    ∧ strncmp_eq0 (cstr "foo\t42\n") (cstr "foo" ++ cstr " ") (strlen (cstr "foo" ++ cstr " "))
        = false
    ∧ mem_loop (cstr "foo" ++ cstr " ") [cstr "foo\t42\n"] = none
    ∧ cpu_loop (host_with_mounts [] (fun _ => false)) (cstr "foo" ++ cstr " ")
        [cstr "foo\t42\n"] = none
    ∧ dev_loop (cstr "foo" ++ cstr " ") [cstr "foo\t42\n"] = none := by
  decide

/-- C6 (failing input): on the content `Read x y` / `Read 5` with the metric `Read`, the first
line matches and scans neither as two nor as three columns. `zbx_module_lxd_mem` skips it and
returns OK with 5 from the second line, while `zbx_module_lxd_dev` leaves its loop at the first
line and returns the not-found failure although a well-formed matching line follows. -/
theorem dev_stops_at_malformed_line :
    zbx_module_lxd_mem
        (host_with_file (cstr "/sys/fs/cgroup/memory/lxc/c1/memory.stat")
          (cstr "Read x y\nRead 5\n") 1)
        lxc_topology [cstr "c1", cstr "Read"] {}
      = (SYSINFO_RET_OK, { ui64 := some 5 })
    ∧ zbx_module_lxd_dev
        (host_with_file (cstr "/sys/fs/cgroup/blkio/lxc/c1/blkio.throttle.io_serviced")
          (cstr "Read x y\nRead 5\n") 1)
        lxc_topology [cstr "c1", cstr "blkio.throttle.io_serviced", cstr "Read"] {}
      = (SYSINFO_RET_FAIL,
          { msg := some (cstr "Cannot find a line with requested metric in blkio file") }) := by
  decide

/-! ## `string_replace` and `strstr` -/

theorem string_replace_from_skip (a b : List Char) (pre rest : List Char) :
    string_replace_from a b pre.length (pre ++ rest) = string_replace_from a b 0 rest := by
  induction pre with
  | nil => rfl
  | cons c cs ih => simpa [string_replace_from] using ih

theorem string_replace_match (a b rest : List Char) (ha : a ≠ []) :
    string_replace (a ++ rest) a b = b ++ string_replace rest a b := by
  cases a with
  | nil => exact absurd rfl ha
  | cons s ss =>
    unfold string_replace
    have hp : (s :: ss).isPrefixOf (s :: (ss ++ rest)) = true :=
      List.isPrefixOf_iff_prefix.mpr ⟨rest, rfl⟩
    rw [List.cons_append, string_replace_from, hp]
    simp only [if_true, strlen, List.length_cons, Nat.add_sub_cancel]
    rw [string_replace_from_skip]

theorem string_replace_cons (a b cs : List Char) (c : Char) (h : ¬ a <+: c :: cs) :
    string_replace (c :: cs) a b = c :: string_replace cs a b := by
  unfold string_replace
  have hp : a.isPrefixOf (c :: cs) = false := by
    cases h2 : a.isPrefixOf (c :: cs) with
    | false => rfl
    | true => exact absurd (List.isPrefixOf_iff_prefix.mp h2) h
  rw [string_replace_from, hp]
  simp

theorem string_replace_nil (a b : List Char) : string_replace [] a b = [] := by
  cases a <;> rfl

theorem strstr_some (n : List Char) : ∀ (s t : List Char), strstr s n = some t →
    ∃ pre, s = pre ++ t ∧ n <+: t := by
  intro s
  induction s with
  | nil =>
    intro t h
    unfold strstr at h
    split at h
    · rename_i hp
      injection h with h
      subst h
      exact ⟨[], rfl, List.isPrefixOf_iff_prefix.mp hp⟩
    · simp at h
  | cons c cs ih =>
    intro t h
    unfold strstr at h
    split at h
    · rename_i hp
      injection h with h
      subst h
      exact ⟨[], rfl, List.isPrefixOf_iff_prefix.mp hp⟩
    · obtain ⟨pre, h1, h2⟩ := ih t h
      exact ⟨c :: pre, by rw [h1]; rfl, h2⟩

theorem strstr_space (w r : List Char) (hw : ' ' ∉ w) :
    strstr (w ++ ' ' :: r) (cstr " ") = some (' ' :: r) := by
  induction w with
  | nil =>
    have : (cstr " ").isPrefixOf (' ' :: r) = true := List.isPrefixOf_iff_prefix.mpr ⟨r, rfl⟩
    simp only [List.nil_append, strstr, this, if_true]
  | cons c cs ih =>
    have hc : c ≠ ' ' := fun h => hw (h ▸ List.mem_cons_self _ _)
    have : (cstr " ").isPrefixOf (c :: (cs ++ ' ' :: r)) = false := by
      cases h2 : (cstr " ").isPrefixOf (c :: (cs ++ ' ' :: r)) with
      | false => rfl
      | true =>
        obtain ⟨t, ht⟩ := List.isPrefixOf_iff_prefix.mp h2
        have h3 : ' ' :: t = c :: (cs ++ ' ' :: r) := ht
        injection h3 with h4 h5
        exact absurd h4.symm hc
    rw [List.cons_append, strstr, this]
    simp only [Bool.false_eq_true, if_false]
    exact ih (fun h => hw (List.mem_cons_of_mem _ h))

theorem mem_split_first_space (s : List Char) (h : ' ' ∈ s) :
    ∃ w r, s = w ++ ' ' :: r ∧ ' ' ∉ w := by
  induction s with
  | nil => simp at h
  | cons c cs ih =>
    by_cases hc : c = ' '
    · exact ⟨[], cs, by rw [hc]; rfl, by simp⟩
    · rcases List.mem_cons.mp h with h1 | h1
      · exact absurd h1.symm hc
      · obtain ⟨w, r, h2, h3⟩ := ih h1
        refine ⟨c :: w, r, by rw [h2]; rfl, ?_⟩
        intro h4
        rcases List.mem_cons.mp h4 with h5 | h5
        · exact hc h5.symm
        · exact h3 h5

/-- Cutting a string at its first space: `string_replace(s, strstr(s, " "), "")` keeps what
stands before the first space. -/
theorem string_replace_tail (w r : List Char) (hw : ' ' ∉ w) :
    string_replace (w ++ ' ' :: r) (' ' :: r) [] = w := by
  induction w with
  | nil =>
    have := string_replace_match (' ' :: r) [] [] (by simp)
    rw [List.append_nil] at this
    rw [List.nil_append, this, string_replace_nil]
    rfl
  | cons c cs ih =>
    have hc : c ≠ ' ' := fun h => hw (h ▸ List.mem_cons_self _ _)
    have hnp : ¬ (' ' :: r) <+: c :: (cs ++ ' ' :: r) := by
      rintro ⟨t, ht⟩
      injection ht with h4 h5
      exact hc h4.symm
    rw [List.cons_append, string_replace_cons _ _ _ _ hnp,
      ih (fun h => hw (List.mem_cons_of_mem _ h))]

theorem cgroup_space_chars : cstr "cgroup " = ['c', 'g', 'r', 'o', 'u', 'p', ' '] := by decide

theorem cgroup_space_split (pre tl : List Char) (h : cstr "cgroup " = pre ++ ' ' :: tl) :
    pre.getLast? = some 'p' := by
  rw [cgroup_space_chars] at h
  rcases pre with _ | ⟨a0, _ | ⟨a1, _ | ⟨a2, _ | ⟨a3, _ | ⟨a4, _ | ⟨a5, _ | ⟨a6, pre⟩⟩⟩⟩⟩⟩⟩ <;>
    simp at h
  · obtain ⟨h0, h1, h2, h3, h4, h5, _⟩ := h
    subst h5
    rfl

/-- A space that does not follow a `p` survives the removal of every `"cgroup "`. -/
theorem space_survives : ∀ (n : Nat) (str : List Char), str.length ≤ n →
    (∃ pre post, str = pre ++ ' ' :: post ∧ pre.getLast? ≠ some 'p') →
    ' ' ∈ string_replace str (cstr "cgroup ") [] := by
  intro n
  induction n with
  | zero =>
    intro str hlen ⟨pre, post, h1, _⟩
    have : str = [] := List.length_eq_zero.mp (by omega)
    rw [this] at h1
    simp at h1
  | succ n ih =>
    intro str hlen ⟨pre, post, h1, h2⟩
    cases str with
    | nil => simp at h1
    | cons c cs =>
      by_cases hp : cstr "cgroup " <+: c :: cs
      · obtain ⟨rest, hrest⟩ := hp
        rw [← hrest, string_replace_match _ _ _ (by decide), List.nil_append]
        have hl : rest.length ≤ n := by
          have := congrArg List.length hrest
          rw [cgroup_space_chars] at this
          simp only [List.length_append, List.length_cons, List.length_nil] at this hlen
          omega
        apply ih rest hl
        rcases List.append_eq_append_iff.mp (hrest.trans h1) with ⟨a', ha1, ha2⟩ | ⟨c', hc1, hc2⟩
        · refine ⟨a', post, ha2, ?_⟩
          intro h
          apply h2
          rw [ha1, List.getLast?_append, h]
          rfl
        · cases c' with
          | nil => exact ⟨[], post, by simpa using hc2.symm, by simp⟩
          | cons y c'' =>
            injection hc2 with h3 h4
            subst h3
            exact absurd (cgroup_space_split pre c'' hc1) h2
      · rw [string_replace_cons _ _ _ _ hp]
        by_cases hc : c = ' '
        · rw [hc]
          exact List.mem_cons_self _ _
        · apply List.mem_cons_of_mem
          apply ih cs (by simp only [List.length_cons] at hlen; omega)
          cases pre with
          | nil =>
            injection h1 with h3 h4
            exact absurd h3 hc
          | cons d pre' =>
            injection h1 with h3 h4
            refine ⟨pre', post, h4, ?_⟩
            cases pre' with
            | nil => simp
            | cons e pre'' => simpa using h2

/-- In a buffer that contains `"cpuset cgroup"`, a space is left after the removal of every
`"cgroup "`, so `strstr(temp1, " ")` is never NULL. -/
theorem temp1_has_space (path : List Char) (h : (strstr path (cstr "cpuset cgroup")).isSome) :
    ∃ w r, string_replace path (cstr "cgroup ") [] = w ++ ' ' :: r ∧ ' ' ∉ w := by
  apply mem_split_first_space
  obtain ⟨t, ht⟩ := Option.isSome_iff_exists.mp h
  obtain ⟨pre, h1, ⟨post, h2⟩⟩ := strstr_some _ _ _ ht
  apply space_survives path.length path (Nat.le_refl _)
  refine ⟨pre ++ cstr "cpuset", cstr "cgroup" ++ post, ?_, ?_⟩
  · rw [h1, ← h2]
    have : cstr "cpuset cgroup" = cstr "cpuset" ++ ' ' :: cstr "cgroup" := by decide
    rw [this]
    simp
  · have e : (cstr "cpuset").getLast? = some 't' := by decide
    rw [List.getLast?_append, e]
    show some 't' ≠ some 'p'
    decide

theorem string_replace_cgroup_word (w x : List Char) (hw : ' ' ∉ w)
    (hsuf : ¬ cstr "cgroup" <:+ w) :
    string_replace (w ++ ' ' :: x) (cstr "cgroup ") []
      = w ++ ' ' :: string_replace x (cstr "cgroup ") [] := by
  induction w with
  | nil =>
    have hnp : ¬ cstr "cgroup " <+: ' ' :: x := by
      rintro ⟨t, ht⟩
      rw [cgroup_space_chars] at ht
      injection ht with h1 h2
      revert h1
      decide
    rw [List.nil_append, string_replace_cons _ _ _ _ hnp]
    rfl
  | cons c cs ih =>
    have hnp : ¬ cstr "cgroup " <+: c :: (cs ++ ' ' :: x) := by
      intro hp
      have e : cstr "cgroup " = cstr "cgroup" ++ [' '] := by decide
      rw [e] at hp
      have := space_terminated_eq (cstr "cgroup") (c :: cs) x hw (by decide) hp
      exact hsuf (this ▸ List.suffix_refl _)
    rw [List.cons_append, string_replace_cons _ _ _ _ hnp,
      ih (fun h => hw (List.mem_cons_of_mem _ h))
        (fun h => hsuf (h.trans (List.suffix_cons c cs)))]
    rfl

theorem string_replace_cpuset_end (b : List Char)
    (h : ¬ cstr "cpuset" <:+: b ++ cstr "cpuse") :
    string_replace (b ++ cstr "cpuset") (cstr "cpuset") [] = b := by
  induction b with
  | nil =>
    have := string_replace_match (cstr "cpuset") [] [] (by decide)
    rw [List.append_nil] at this
    rw [List.nil_append, this, string_replace_nil]
    rfl
  | cons c cs ih =>
    have hnp : ¬ cstr "cpuset" <+: c :: (cs ++ cstr "cpuset") := by
      intro hp
      apply h
      have h2 : (c :: cs ++ cstr "cpuse") <+: c :: (cs ++ cstr "cpuset") :=
        ⟨['t'], by
          have : cstr "cpuset" = cstr "cpuse" ++ ['t'] := by decide
          rw [this]
          simp⟩
      have hlen : (cstr "cpuset").length ≤ (c :: cs ++ cstr "cpuse").length := by
        have e1 : (cstr "cpuset").length = 6 := by decide
        have e2 : (cstr "cpuse").length = 5 := by decide
        simp only [List.length_append, List.length_cons, e1, e2]
        omega
      exact (List.prefix_of_prefix_length_le hp h2 hlen).isInfix
    rw [List.cons_append, string_replace_cons _ _ _ _ hnp,
      ih (fun h' => h (h'.trans (List.suffix_cons c _).isInfix))]

/-! ## Topology detection: claims C7 to C10 -/

theorem ddir_eq (sd cgroup tdriver : List Char) :
    zbx_strlcat (zbx_strlcat (zbx_strlcpy sd (cgroup.length + sd.length + tdriver.length + 1))
        cgroup (cgroup.length + sd.length + tdriver.length + 1)) tdriver
        (cgroup.length + sd.length + tdriver.length + 1)
      = sd ++ cgroup ++ tdriver := by
  rw [zbx_strlcpy_fits sd _ (by omega), zbx_strlcat_fits sd _ _ (by omega),
    zbx_strlcat_fits _ _ _ (by simp only [List.length_append]; omega)]

theorem ddir_cpu_eq (sd cgroup : List Char) :
    zbx_strlcat (zbx_strlcpy sd (cgroup.length + sd.length + 1)) cgroup
        (cgroup.length + sd.length + 1) = sd ++ cgroup := by
  rw [zbx_strlcpy_fits sd _ (by omega), zbx_strlcat_fits sd _ _ (by omega)]

theorem detect_cpu_cgroup_eq (env : Env) (g : Globals) (sd : List Char) :
    detect_cpu_cgroup env g sd = (SYSINFO_RET_OK, ⟨g.stat_dir, g.driver,
      some (if env.opendir (sd ++ cstr "cpu,cpuacct/") then cstr "cpu,cpuacct/"
        else cstr "cpuacct/")⟩) := by
  unfold detect_cpu_cgroup
  simp only [strlen, ddir_cpu_eq]
  cases env.opendir (sd ++ cstr "cpu,cpuacct/") <;> rfl

theorem detect_driver_drivers (env : Env) (g : Globals) (sd : List Char) :
    detect_driver env g sd drivers =
      if env.opendir (sd ++ cstr "cpuset/" ++ cstr "lxc/") then
        (SYSINFO_RET_OK, ⟨g.stat_dir, some (cstr "lxc/"),
          some (if env.opendir (sd ++ cstr "cpu,cpuacct/") then cstr "cpu,cpuacct/"
            else cstr "cpuacct/")⟩)
      else (SYSINFO_RET_FAIL, ⟨g.stat_dir, some (cstr ""), g.cpu_cgroup⟩) := by
  have h1 : cstr "lxc/" ≠ cstr "" := by decide
  unfold drivers
  rw [detect_driver, if_neg h1]
  simp only [strlen, ddir_eq]
  cases env.opendir (sd ++ cstr "cpuset/" ++ cstr "lxc/") with
  | true => simp [detect_cpu_cgroup_eq]
  | false => simp [detect_driver]

theorem detect_found_eq (env : Env) (g : Globals) (path : List Char)
    (h : (strstr path (cstr "cpuset cgroup")).isSome) :
    ∃ sd, detect_found env g path
      = some (detect_driver env { g with stat_dir := some sd } sd drivers) := by
  obtain ⟨w, r, h1, h2⟩ := temp1_has_space path h
  unfold detect_found
  simp only []
  have e : cstr "" = [] := rfl
  rw [e, h1, strstr_space w r h2]
  exact ⟨_, rfl⟩

theorem detect_scan_find (env : Env) (g : Globals) (chunks : List (List Char)) :
    detect_scan env g chunks =
      match chunks.find? (fun p => (strstr p (cstr "cpuset cgroup")).isSome) with
      | some path => detect_found env g path
      | none => some (SYSINFO_RET_FAIL, g) := by
  induction chunks with
  | nil => rfl
  | cons p ps ih =>
    rw [detect_scan, List.find?_cons]
    cases hp : strstr p (cstr "cpuset cgroup") with
    | none => simpa using ih
    | some t => simp

/-- One call of `zbx_lxd_dir_detect` ends normally and leaves one of three results: a failure
with the globals untouched, a success with the driver `lxc/`, or a failure with a new
`stat_dir`, the driver `""` and `cpu_cgroup` untouched. -/
theorem zbx_lxd_dir_detect_cases (env : Env) (g : Globals) :
    zbx_lxd_dir_detect env g = some (SYSINFO_RET_FAIL, g)
    ∨ ∃ sd, zbx_lxd_dir_detect env g = some
        (if env.opendir (sd ++ cstr "cpuset/" ++ cstr "lxc/") then
          (SYSINFO_RET_OK, ⟨some sd, some (cstr "lxc/"),
            some (if env.opendir (sd ++ cstr "cpu,cpuacct/") then cstr "cpu,cpuacct/"
              else cstr "cpuacct/")⟩)
        else (SYSINFO_RET_FAIL, ⟨some sd, some (cstr ""), g.cpu_cgroup⟩)) := by
  unfold zbx_lxd_dir_detect
  cases env.fopen (cstr "/proc/mounts") with
  | none => exact Or.inl rfl
  | some mounts =>
    simp only []
    rw [detect_scan_find]
    cases hf : (fgets_all 512 mounts).find?
        (fun p => (strstr p (cstr "cpuset cgroup")).isSome) with
    | none => exact Or.inl rfl
    | some path =>
      right
      have hp := List.find?_some hf
      obtain ⟨sd, hsd⟩ := detect_found_eq env g path hp
      refine ⟨sd, ?_⟩
      simp only [hsd, detect_driver_drivers]

/-- C7 (amended): when the first buffer of `/proc/mounts` that contains `"cpuset cgroup"` is a
line `cgroup <b>cpuset cgroup <rest>` whose base `b` has no space and in which `cpuset` occurs
only as the final segment of the mount point `<b>cpuset`, `zbx_lxd_dir_detect` ends normally
with `stat_dir = b`. -/
theorem stat_dir_of_cgroup_line (env : Env) (g : Globals) (mounts b rest : List Char)
    (hopen : env.fopen (cstr "/proc/mounts") = some mounts)
    (hfirst : (fgets_all 512 mounts).find? (fun p => (strstr p (cstr "cpuset cgroup")).isSome)
      = some (cstr "cgroup " ++ b ++ cstr "cpuset cgroup " ++ rest))
    (hb : ' ' ∉ b) (hcp : ¬ cstr "cpuset" <:+: b ++ cstr "cpuse") :
    ∃ ret g1, zbx_lxd_dir_detect env g = some (ret, g1) ∧ g1.stat_dir = some b := by
  have hpath : cstr "cgroup " ++ b ++ cstr "cpuset cgroup " ++ rest
      = cstr "cgroup " ++ ((b ++ cstr "cpuset") ++ ' ' :: (cstr "cgroup " ++ rest)) := by
    have : cstr "cpuset cgroup " = cstr "cpuset" ++ ' ' :: cstr "cgroup " := by decide
    rw [this]
    simp
  have hw : ' ' ∉ b ++ cstr "cpuset" := by
    intro h
    rcases List.mem_append.mp h with h1 | h1
    · exact hb h1
    · revert h1
      decide
  have hsuf : ¬ cstr "cgroup" <:+ b ++ cstr "cpuset" := by
    intro h
    have h2 : cstr "cpuset" <:+ b ++ cstr "cpuset" := List.suffix_append _ _
    have h3 := (List.suffix_of_suffix_length_le h h2 (by decide)).eq_of_length (by decide)
    revert h3
    decide
  have e : cstr "" = [] := rfl
  unfold zbx_lxd_dir_detect
  rw [hopen]
  simp only []
  rw [detect_scan_find, hfirst]
  simp only []
  unfold detect_found
  simp only []
  rw [hpath, e, string_replace_match _ _ _ (by decide), List.nil_append,
    string_replace_cgroup_word _ _ hw hsuf, strstr_space _ _ hw]
  simp only []
  rw [string_replace_tail _ _ hw, string_replace_cpuset_end b hcp, detect_driver_drivers]
  cases env.opendir (b ++ cstr "cpuset/" ++ cstr "lxc/") with
  | true => exact ⟨_, _, rfl, rfl⟩
  | false => exact ⟨_, _, rfl, rfl⟩

/-- Witness of C7 (amended): the line
`cgroup /sys/fs/cgroup/cpuset cgroup rw,nosuid,cpuset 0 0` gives `/sys/fs/cgroup/`. -/
theorem stat_dir_of_cgroup_line_witness :
    ∃ ret g1, zbx_lxd_dir_detect (host_with_mounts cpuset_mount_line (fun _ => true)) {}
        = some (ret, g1)
      ∧ g1.stat_dir = some (cstr "/sys/fs/cgroup/") :=
  stat_dir_of_cgroup_line (host_with_mounts cpuset_mount_line (fun _ => true)) {} cpuset_mount_line
    (cstr "/sys/fs/cgroup/") (cstr "rw,nosuid,cpuset 0 0\n") (by decide) (by decide) (by decide)
    (by decide)

/-- C7 (counterexample): for the mount line `cgroup /mnt/cpusets/cpuset cgroup rw,cpuset 0 0`
the mount point without its trailing `cpuset` segment is `/mnt/cpusets/`, but
`zbx_lxd_dir_detect` sets `stat_dir` to `/mnt/s/`: every `cpuset` is removed. For the line
`none /sys/fs/cgroup/cpuset cgroup rw,cpuset 0 0` it sets `stat_dir` to the first field `none`,
not to a part of the mount point. -/
theorem stat_dir_not_mount_point_counterexample :
    zbx_lxd_dir_detect
        (host_with_mounts (cstr "cgroup /mnt/cpusets/cpuset cgroup rw,cpuset 0 0\n")
          (fun _ => true)) {}
      = some (SYSINFO_RET_OK,
          ⟨some (cstr "/mnt/s/"), some (cstr "lxc/"), some (cstr "cpu,cpuacct/")⟩)
    ∧ zbx_lxd_dir_detect
        (host_with_mounts (cstr "none /sys/fs/cgroup/cpuset cgroup rw,cpuset 0 0\n")
          (fun _ => true)) {}
      = some (SYSINFO_RET_OK,
          ⟨some (cstr "none"), some (cstr "lxc/"), some (cstr "cpu,cpuacct/")⟩) := by
  decide

/-- C8 (amended): once a buffer of `/proc/mounts` contains `"cpuset cgroup"`, the only driver
candidate probed is `lxc/`: when `<stat_dir>cpuset/lxc/` opens, detection returns
SYSINFO_RET_OK with `driver = "lxc/"` and `cpu_cgroup` set; otherwise it returns
SYSINFO_RET_FAIL with `driver = ""` and `cpu_cgroup` left as it was, whether or not
`<stat_dir>cpuset/` opens. -/
theorem driver_probe_lxc_only (env : Env) (g : Globals) (mounts : List Char)
    (hopen : env.fopen (cstr "/proc/mounts") = some mounts)
    (hline : ∃ path ∈ fgets_all 512 mounts, (strstr path (cstr "cpuset cgroup")).isSome) :
    ∃ sd, zbx_lxd_dir_detect env g = some
      (if env.opendir (sd ++ cstr "cpuset/" ++ cstr "lxc/") then
        (SYSINFO_RET_OK, ⟨some sd, some (cstr "lxc/"),
          some (if env.opendir (sd ++ cstr "cpu,cpuacct/") then cstr "cpu,cpuacct/"
            else cstr "cpuacct/")⟩)
      else (SYSINFO_RET_FAIL, ⟨some sd, some (cstr ""), g.cpu_cgroup⟩)) := by
  obtain ⟨path, hmem, hsome⟩ := hline
  unfold zbx_lxd_dir_detect
  rw [hopen]
  simp only []
  rw [detect_scan_find]
  cases hf : (fgets_all 512 mounts).find?
      (fun p => (strstr p (cstr "cpuset cgroup")).isSome) with
  | none =>
    have := List.find?_eq_none.mp hf path hmem
    exact absurd hsome this
  | some first =>
    have hp := List.find?_some hf
    obtain ⟨sd, hsd⟩ := detect_found_eq env g first hp
    exact ⟨sd, by simp only [hsd, detect_driver_drivers]⟩

/-- Witness of C8 (amended): a host on which only `/sys/fs/cgroup/cpuset/lxc/` opens. -/
theorem driver_probe_lxc_only_witness :
    ∃ sd, zbx_lxd_dir_detect
        (host_with_mounts cpuset_mount_line (fun p => p == cstr "/sys/fs/cgroup/cpuset/lxc/")) {}
      = some
        (if (host_with_mounts cpuset_mount_line
              (fun p => p == cstr "/sys/fs/cgroup/cpuset/lxc/")).opendir
            (sd ++ cstr "cpuset/" ++ cstr "lxc/") then
          (SYSINFO_RET_OK, ⟨some sd, some (cstr "lxc/"),
            some (if (host_with_mounts cpuset_mount_line
                  (fun p => p == cstr "/sys/fs/cgroup/cpuset/lxc/")).opendir
                (sd ++ cstr "cpu,cpuacct/") then cstr "cpu,cpuacct/" else cstr "cpuacct/")⟩)
        else (SYSINFO_RET_FAIL, ⟨some sd, some (cstr ""), none⟩)) :=
  driver_probe_lxc_only
    (host_with_mounts cpuset_mount_line (fun p => p == cstr "/sys/fs/cgroup/cpuset/lxc/")) {}
    cpuset_mount_line (by decide) ⟨cpuset_mount_line, by decide, by decide⟩

/-- C8 (counterexample): `/sys/fs/cgroup/cpuset/lxc/` does not open and `/sys/fs/cgroup/cpuset/`
does. The empty candidate is not probed: detection returns SYSINFO_RET_FAIL with `driver = ""`
and `cpu_cgroup` still unset. -/
theorem empty_driver_not_probed_counterexample :
    zbx_lxd_dir_detect
        (host_with_mounts cpuset_mount_line (fun p => p == cstr "/sys/fs/cgroup/cpuset/")) {}
      = some (SYSINFO_RET_FAIL, ⟨some (cstr "/sys/fs/cgroup/"), some (cstr ""), none⟩) := by
  decide

/-- C9: whenever `zbx_lxd_dir_detect` returns SYSINFO_RET_OK, `stat_dir` is set and `cpu_cgroup`
is `"cpu,cpuacct/"` if the directory `stat_dir ++ "cpu,cpuacct/"` opens and `"cpuacct/"`
otherwise. -/
theorem cpu_cgroup_after_ok (env : Env) (g g1 : Globals)
    (h : zbx_lxd_dir_detect env g = some (SYSINFO_RET_OK, g1)) :
    ∃ sd, g1.stat_dir = some sd
      ∧ g1.cpu_cgroup = some (if env.opendir (sd ++ cstr "cpu,cpuacct/") then cstr "cpu,cpuacct/"
          else cstr "cpuacct/") := by
  have hne : SYSINFO_RET_FAIL ≠ SYSINFO_RET_OK := by decide
  rcases zbx_lxd_dir_detect_cases env g with h1 | ⟨sd, h1⟩
  · rw [h1] at h
    injection h with h
    injection h with h2 h3
    exact absurd h2 hne
  · rw [h1] at h
    injection h with h
    cases hdir : env.opendir (sd ++ cstr "cpuset/" ++ cstr "lxc/") with
    | true =>
      rw [hdir] at h
      simp only [if_true] at h
      injection h with h2 h3
      subst h3
      exact ⟨sd, rfl, rfl⟩
    | false =>
      rw [hdir] at h
      simp only [Bool.false_eq_true, if_false] at h
      injection h with h2 h3
      exact absurd h2 hne

/-- Witness of C9: a host without the joined controller directory. -/
theorem cpu_cgroup_after_ok_witness :
    zbx_lxd_dir_detect
        (host_with_mounts cpuset_mount_line (fun p => p == cstr "/sys/fs/cgroup/cpuset/lxc/")) {}
      = some (SYSINFO_RET_OK, lxc_topology)
    ∧ ∃ sd, lxc_topology.stat_dir = some sd
      ∧ lxc_topology.cpu_cgroup = some
          (if (host_with_mounts cpuset_mount_line
                (fun p => p == cstr "/sys/fs/cgroup/cpuset/lxc/")).opendir
              (sd ++ cstr "cpu,cpuacct/") then cstr "cpu,cpuacct/" else cstr "cpuacct/") :=
  ⟨by decide,
   cpu_cgroup_after_ok
    (host_with_mounts cpuset_mount_line (fun p => p == cstr "/sys/fs/cgroup/cpuset/lxc/")) {}
    lxc_topology (by decide)⟩

theorem detect_run_shape_from (envs : List Env) : ∀ (g : Globals),
    (g.stat_dir.isSome = g.driver.isSome ∧ (g.cpu_cgroup.isSome = true → g.stat_dir.isSome = true)) →
    ∃ g1, detect_run envs g = some g1
      ∧ g1.stat_dir.isSome = g1.driver.isSome
      ∧ (g1.cpu_cgroup.isSome = true → g1.stat_dir.isSome = true) := by
  induction envs with
  | nil => exact fun g hg => ⟨g, rfl, hg⟩
  | cons env rest ih =>
    intro g hg
    rw [detect_run]
    rcases zbx_lxd_dir_detect_cases env g with h1 | ⟨sd, h1⟩
    · rw [h1]
      exact ih g hg
    · rw [h1]
      cases env.opendir (sd ++ cstr "cpuset/" ++ cstr "lxc/") with
      | true => exact ih _ ⟨rfl, fun _ => rfl⟩
      | false => exact ih _ ⟨rfl, fun _ => rfl⟩

/-- C10 (amended): starting from the all-unset state, after every sequence of calls of
`zbx_lxd_dir_detect`, whatever the mount tables contain and the directory probes return, every
call ends normally and the topology is fully unresolved, or fully resolved, or has `stat_dir`
and `driver` set and `cpu_cgroup` unset; no other partial state occurs. -/
theorem detect_run_shape (envs : List Env) :
    ∃ g, detect_run envs {} = some g
      ∧ ((g.stat_dir = none ∧ g.driver = none ∧ g.cpu_cgroup = none)
        ∨ (g.stat_dir.isSome ∧ g.driver.isSome ∧ g.cpu_cgroup.isSome)
        ∨ (g.stat_dir.isSome ∧ g.driver.isSome ∧ g.cpu_cgroup = none)) := by
  obtain ⟨g, h1, h2, h3⟩ := detect_run_shape_from envs {} ⟨rfl, fun h => by simp at h⟩
  refine ⟨g, h1, ?_⟩
  obtain ⟨sd, dr, cg⟩ := g
  cases sd <;> cases dr <;> cases cg <;> simp at h2 h3 ⊢

/-- C10 (counterexample): one call from the all-unset state, on a host whose mount table has the
cpuset line and where no directory opens, leaves `stat_dir` and `driver` set and `cpu_cgroup`
unset: a partially set topology. -/
theorem partial_topology_counterexample :
    detect_run [host_with_mounts cpuset_mount_line (fun _ => false)] {}
      = some ⟨some (cstr "/sys/fs/cgroup/"), some (cstr ""), none⟩ := by
  decide

/-! ## Unresolved topology and parameter counts: claims C11 and C19 -/

/-- C11 (amended): a request with the right number of parameters that arrives while `stat_dir`
is unset is answered by each of the five metric handlers with SYSINFO_RET_FAIL and its
"no stat directory" message, the globals left as they are: `zbx_lxd_dir_detect` is not called,
so the answer does not depend on what detection would find. -/
theorem handlers_fail_without_stat_dir (env : Env) (g : Globals)
    (id stat metric : List Char) (result : AGENT_RESULT) (h : g.stat_dir = none) :
    zbx_module_lxd_up env g [id] result = some (SYSINFO_RET_FAIL, SET_MSG_RESULT result
        (cstr "up check is not available at the moment - no stat directory"), g)
    ∧ zbx_module_lxd_mem env g [id, metric] result = (SYSINFO_RET_FAIL, SET_MSG_RESULT result
        (cstr "mem metrics are not available at the moment - no stat directory"))
    ∧ zbx_module_lxd_cpu env g [id, metric] result = some (SYSINFO_RET_FAIL, SET_MSG_RESULT result
        (cstr "cpu metrics are not available at the moment - no stat directory"), g)
    ∧ zbx_module_lxd_dev env g [id, stat, metric] result = (SYSINFO_RET_FAIL,
        SET_MSG_RESULT result
          (cstr "dev metrics are not available at the moment - no stat directory"))
    ∧ zbx_module_lxd_disk env g [id, metric] result = some (SYSINFO_RET_FAIL,
        SET_MSG_RESULT result
          (cstr "disk metrics are not available at the moment - no stat directory"), g) := by
  refine ⟨?_, ?_, ?_, ?_, ?_⟩
  · simp [zbx_module_lxd_up, h]
  · unfold zbx_module_lxd_mem
    rw [h]
    simp
  · simp [zbx_module_lxd_cpu, h]
  · unfold zbx_module_lxd_dev
    rw [h]
    simp
  · simp [zbx_module_lxd_disk, h]

/-- Witness of C11 (amended): the all-unset topology on a host where detection would succeed. -/
theorem handlers_fail_without_stat_dir_witness :
    zbx_module_lxd_up (host_with_mounts cpuset_mount_line (fun _ => true)) {} [cstr "c1"] {}
      = some (SYSINFO_RET_FAIL, SET_MSG_RESULT {}
          (cstr "up check is not available at the moment - no stat directory"), {}) :=
  (handlers_fail_without_stat_dir (host_with_mounts cpuset_mount_line (fun _ => true)) {}
    (cstr "c1") (cstr "blkio.throttle.io_serviced") (cstr "user") {} rfl).1

/-- C11 (counterexample): on a host where `zbx_lxd_dir_detect` succeeds, a request to
`zbx_module_lxd_cpu` that arrives with the all-unset topology is not served from a newly
resolved topology: it fails with the "no stat directory" message and the topology stays unset. -/
theorem no_redetect_counterexample :
    zbx_lxd_dir_detect (host_with_mounts cpuset_mount_line (fun _ => true)) {}
      = some (SYSINFO_RET_OK,
          ⟨some (cstr "/sys/fs/cgroup/"), some (cstr "lxc/"), some (cstr "cpu,cpuacct/")⟩)
    ∧ zbx_module_lxd_cpu (host_with_mounts cpuset_mount_line (fun _ => true)) {}
        [cstr "c1", cstr "user"] {}
      = some (SYSINFO_RET_FAIL,
          { msg := some (cstr "cpu metrics are not available at the moment - no stat directory") },
          {}) := by
  decide

/-- C19: each metric handler called with a wrong number of parameters (not 1 for up, not 2 for
mem, cpu and disk, not 3 for dev) returns SYSINFO_RET_FAIL with the message
"Invalid number of parameters", whatever the topology and the environment are, and leaves the
globals unchanged. -/
theorem wrong_parameter_count (env : Env) (g : Globals) (request : List (List Char))
    (result : AGENT_RESULT) :
    (request.length ≠ 1 → zbx_module_lxd_up env g request result
        = some (SYSINFO_RET_FAIL, SET_MSG_RESULT result (cstr "Invalid number of parameters"), g))
    ∧ (request.length ≠ 2 → zbx_module_lxd_mem env g request result
        = (SYSINFO_RET_FAIL, SET_MSG_RESULT result (cstr "Invalid number of parameters")))
    ∧ (request.length ≠ 2 → zbx_module_lxd_cpu env g request result
        = some (SYSINFO_RET_FAIL, SET_MSG_RESULT result (cstr "Invalid number of parameters"), g))
    ∧ (request.length ≠ 3 → zbx_module_lxd_dev env g request result
        = (SYSINFO_RET_FAIL, SET_MSG_RESULT result (cstr "Invalid number of parameters")))
    ∧ (request.length ≠ 2 → zbx_module_lxd_disk env g request result
        = some (SYSINFO_RET_FAIL, SET_MSG_RESULT result (cstr "Invalid number of parameters"), g))
    := by
  refine ⟨?_, ?_, ?_, ?_, ?_⟩ <;> intro h
  · simp [zbx_module_lxd_up, h]
  · simp [zbx_module_lxd_mem, h]
  · simp [zbx_module_lxd_cpu, h]
  · simp [zbx_module_lxd_dev, h]
  · simp [zbx_module_lxd_disk, h]

/-- Witness of C19: `zbx_module_lxd_up` with two parameters and `zbx_module_lxd_dev` with two
parameters, on a resolved topology. -/
theorem wrong_parameter_count_witness :
    zbx_module_lxd_up (host_with_mounts cpuset_mount_line (fun _ => true)) lxc_topology
        [cstr "c1", cstr "extra"] {}
      = some (SYSINFO_RET_FAIL, SET_MSG_RESULT {} (cstr "Invalid number of parameters"),
          lxc_topology)
    ∧ zbx_module_lxd_dev (host_with_mounts cpuset_mount_line (fun _ => true)) lxc_topology
        [cstr "c1", cstr "Read"] {}
      = (SYSINFO_RET_FAIL, SET_MSG_RESULT {} (cstr "Invalid number of parameters")) :=
  ⟨(wrong_parameter_count (host_with_mounts cpuset_mount_line (fun _ => true)) lxc_topology
      [cstr "c1", cstr "extra"] {}).1 (by decide),
   (wrong_parameter_count (host_with_mounts cpuset_mount_line (fun _ => true)) lxc_topology
      [cstr "c1", cstr "Read"] {}).2.2.2.1 (by decide)⟩

/-! ## Disk metrics: claims C12 to C16 -/

theorem root_path_eq (pid : List Char) :
    root_path pid = cstr "/proc/" ++ pid ++ cstr "/root/" := by
  unfold root_path strlen
  simp only []
  have h6 : (cstr "/proc/").length = 6 := by decide
  have h6r : (cstr "/root/").length = 6 := by decide
  rw [zbx_strlcpy_fits (cstr "/proc/") _ (by omega),
    zbx_strlcat_fits (cstr "/proc/") pid _ (by omega),
    zbx_strlcat_fits _ (cstr "/root/") _ (by simp only [List.length_append]; omega)]

/-- On a resolved topology and with two parameters, `zbx_module_lxd_disk` is the PID search
followed by the `statvfs` part. -/
theorem disk_resolved (env : Env) (sd dr cg id metric : List Char) (result : AGENT_RESULT) :
    zbx_module_lxd_disk env ⟨some sd, some dr, some cg⟩ [id, metric] result =
      match disk_find_pid env (sd ++ cg ++ dr ++ id ++ cstr "/ns/init.scope/cgroup.procs") id
          result with
      | none => none
      | some (Sum.inl early) => some (early.1, early.2, ⟨some sd, some dr, some cg⟩)
      | some (Sum.inr pid) =>
        some ((disk_stat env pid metric result).1, (disk_stat env pid metric result).2,
          ⟨some sd, some dr, some cg⟩) := by
  unfold zbx_module_lxd_disk disk_read
  simp only [List.length_cons, List.length_nil, ne_eq, not_true_eq_false, if_false,
    get_rparam, List.getD_cons_zero, List.getD_cons_succ, metric_filename_eq,
    Option.isNone_some, Bool.or_self, Bool.false_eq_true]

theorem disk_stat_ok (env : Env) (pid metric : List Char) (result : AGENT_RESULT)
    (st : statvfs_t) (hst : env.statvfs (cstr "/proc/" ++ pid ++ cstr "/root/") = some st) :
    disk_stat env pid metric result = disk_metric st metric result := by
  unfold disk_stat
  rw [root_path_eq, hst]

/-- C12: when the PID string `pid` of the container is found and `statvfs` succeeds on
`/proc/<pid>/root/`, `zbx_module_lxd_disk` returns OK with the unsigned value `F*T` for "size",
`B*Fr` for "free", `B*Av` for "avail" (each product modulo 2^64, which is the exact product
when that is below 2^64), `I` for "inodes", `If` for "inodes_free" and `Ia` for
"inodes_avail". -/
theorem disk_unsigned_values (env : Env) (sd dr cg id pid : List Char) (st : statvfs_t)
    (result : AGENT_RESULT)
    (hpid : disk_find_pid env (sd ++ cg ++ dr ++ id ++ cstr "/ns/init.scope/cgroup.procs") id
      result = some (Sum.inr pid))
    (hst : env.statvfs (cstr "/proc/" ++ pid ++ cstr "/root/") = some st) :
    zbx_module_lxd_disk env ⟨some sd, some dr, some cg⟩ [id, cstr "size"] result
        = some (SYSINFO_RET_OK, SET_UI64_RESULT result ((st.f_frsize * st.f_blocks) % 2 ^ 64),
            ⟨some sd, some dr, some cg⟩)
    ∧ zbx_module_lxd_disk env ⟨some sd, some dr, some cg⟩ [id, cstr "free"] result
        = some (SYSINFO_RET_OK, SET_UI64_RESULT result ((st.f_bsize * st.f_bfree) % 2 ^ 64),
            ⟨some sd, some dr, some cg⟩)
    ∧ zbx_module_lxd_disk env ⟨some sd, some dr, some cg⟩ [id, cstr "avail"] result
        = some (SYSINFO_RET_OK, SET_UI64_RESULT result ((st.f_bsize * st.f_bavail) % 2 ^ 64),
            ⟨some sd, some dr, some cg⟩)
    ∧ zbx_module_lxd_disk env ⟨some sd, some dr, some cg⟩ [id, cstr "inodes"] result
        = some (SYSINFO_RET_OK, SET_UI64_RESULT result st.f_files, ⟨some sd, some dr, some cg⟩)
    ∧ zbx_module_lxd_disk env ⟨some sd, some dr, some cg⟩ [id, cstr "inodes_free"] result
        = some (SYSINFO_RET_OK, SET_UI64_RESULT result st.f_ffree, ⟨some sd, some dr, some cg⟩)
    ∧ zbx_module_lxd_disk env ⟨some sd, some dr, some cg⟩ [id, cstr "inodes_avail"] result
        = some (SYSINFO_RET_OK, SET_UI64_RESULT result st.f_favail, ⟨some sd, some dr, some cg⟩)
    ∧ (st.f_frsize * st.f_blocks < 2 ^ 64 →
        (st.f_frsize * st.f_blocks) % 2 ^ 64 = st.f_frsize * st.f_blocks)
    ∧ (st.f_bsize * st.f_bfree < 2 ^ 64 →
        (st.f_bsize * st.f_bfree) % 2 ^ 64 = st.f_bsize * st.f_bfree)
    ∧ (st.f_bsize * st.f_bavail < 2 ^ 64 →
        (st.f_bsize * st.f_bavail) % 2 ^ 64 = st.f_bsize * st.f_bavail) := by
  refine ⟨?_, ?_, ?_, ?_, ?_, ?_, Nat.mod_eq_of_lt, Nat.mod_eq_of_lt, Nat.mod_eq_of_lt⟩ <;>
    (rw [disk_resolved, hpid]
     simp only [disk_stat_ok env pid _ result st hst]
     rfl)

/-- Witness of C12: the PID 4321 read from `cgroup.procs`, with `example_statvfs`. -/
theorem disk_unsigned_values_witness :
    zbx_module_lxd_disk (host_with_procs (cstr "4321\n") (cstr "/proc/4321/root/")) lxc_topology
        [cstr "c1", cstr "size"] {}
      = some (SYSINFO_RET_OK, { ui64 := some 4096000 }, lxc_topology)
    ∧ zbx_module_lxd_disk (host_with_procs (cstr "4321\n") (cstr "/proc/4321/root/")) lxc_topology
        [cstr "c1", cstr "inodes_free"] {}
      = some (SYSINFO_RET_OK, { ui64 := some 200 }, lxc_topology) :=
  ⟨(disk_unsigned_values (host_with_procs (cstr "4321\n") (cstr "/proc/4321/root/"))
      (cstr "/sys/fs/cgroup/") (cstr "lxc/") (cstr "cpuacct/") (cstr "c1") (cstr "4321")
      example_statvfs {} (by decide) (by decide)).1,
   (disk_unsigned_values (host_with_procs (cstr "4321\n") (cstr "/proc/4321/root/"))
      (cstr "/sys/fs/cgroup/") (cstr "lxc/") (cstr "cpuacct/") (cstr "c1") (cstr "4321")
      example_statvfs {} (by decide) (by decide)).2.2.2.2.1⟩

theorem strcmp_eq0_of_ne (a b : List Char) (h : ¬ a = b) : strcmp_eq0 a b = false := by
  unfold strcmp_eq0
  exact beq_eq_false_iff_ne.mpr h

theorem disk_stat_pavail (env : Env) (pid : List Char) (result : AGENT_RESULT) :
    disk_stat env pid (cstr "pavail") result = disk_stat env pid (cstr "pfree") result := by
  unfold disk_stat
  cases env.statvfs (root_path pid) <;> rfl

theorem disk_read_pavail (env : Env) (g : Globals) (id : List Char) (result : AGENT_RESULT) :
    disk_read env g [id, cstr "pavail"] result = disk_read env g [id, cstr "pfree"] result := by
  unfold disk_read
  simp only [get_rparam, List.getD_cons_zero, List.getD_cons_succ, disk_stat_pavail]

/-- C13: `zbx_module_lxd_disk` answers the metric "pavail" exactly as it answers "pfree", in
every environment and topology; for every `statvfs` result both are the double
`100 * (f_bsize * f_bfree) / (f_frsize * f_blocks)`, which does not change when `f_bavail`
changes. -/
theorem pavail_equals_pfree (env : Env) (g : Globals) (id : List Char) (result : AGENT_RESULT)
    (st : statvfs_t) (x : Nat) :
    zbx_module_lxd_disk env g [id, cstr "pavail"] result
        = zbx_module_lxd_disk env g [id, cstr "pfree"] result
    ∧ disk_metric st (cstr "pavail") result = (SYSINFO_RET_OK, SET_DBL_RESULT result
        ⟨(st.f_bsize * st.f_bfree) % 2 ^ 64, (st.f_frsize * st.f_blocks) % 2 ^ 64⟩)
    ∧ disk_metric st (cstr "pfree") result = (SYSINFO_RET_OK, SET_DBL_RESULT result
        ⟨(st.f_bsize * st.f_bfree) % 2 ^ 64, (st.f_frsize * st.f_blocks) % 2 ^ 64⟩)
    ∧ disk_metric { st with f_bavail := x } (cstr "pavail") result
        = disk_metric st (cstr "pavail") result := by
  refine ⟨?_, rfl, rfl, rfl⟩
  unfold zbx_module_lxd_disk
  simp only [List.length_cons, List.length_nil, disk_read_pavail]

/-- C14 (amended): for a metric name outside the supported set, with the PID string of the
container found, `zbx_module_lxd_disk` returns the failure "Unknown metric" when the `statvfs`
call succeeds, and the failure "Failed to retrieve stats for process root" when it fails: the
call is made before the metric name is looked at. -/
theorem unknown_metric_after_statvfs (env : Env) (sd dr cg id pid metric : List Char)
    (result : AGENT_RESULT)
    (hm : metric ∉ [cstr "size", cstr "free", cstr "pfree", cstr "avail", cstr "pavail",
      cstr "inodes", cstr "inodes_free", cstr "inodes_pfree", cstr "inodes_avail",
      cstr "inodes_pavail"])
    (hpid : disk_find_pid env (sd ++ cg ++ dr ++ id ++ cstr "/ns/init.scope/cgroup.procs") id
      result = some (Sum.inr pid)) :
    (∀ st, env.statvfs (cstr "/proc/" ++ pid ++ cstr "/root/") = some st →
        zbx_module_lxd_disk env ⟨some sd, some dr, some cg⟩ [id, metric] result
          = some (SYSINFO_RET_FAIL, SET_MSG_RESULT result (cstr "Unknown metric"),
              ⟨some sd, some dr, some cg⟩))
    ∧ (env.statvfs (cstr "/proc/" ++ pid ++ cstr "/root/") = none →
        zbx_module_lxd_disk env ⟨some sd, some dr, some cg⟩ [id, metric] result
          = some (SYSINFO_RET_FAIL,
              SET_MSG_RESULT result (cstr "Failed to retrieve stats for process root"),
              ⟨some sd, some dr, some cg⟩)) := by
  constructor
  · intro st hst
    rw [disk_resolved, hpid]
    simp only [disk_stat_ok env pid _ result st hst]
    simp only [List.mem_cons, List.mem_singleton, List.not_mem_nil, or_false, not_or] at hm
    obtain ⟨h1, h2, h3, h4, h5, h6, h7, h8, h9, h10⟩ := hm
    unfold disk_metric
    simp only [strcmp_eq0_of_ne _ _ h1, strcmp_eq0_of_ne _ _ h2, strcmp_eq0_of_ne _ _ h3,
      strcmp_eq0_of_ne _ _ h4, strcmp_eq0_of_ne _ _ h5, strcmp_eq0_of_ne _ _ h6,
      strcmp_eq0_of_ne _ _ h7, strcmp_eq0_of_ne _ _ h8, strcmp_eq0_of_ne _ _ h9,
      strcmp_eq0_of_ne _ _ h10, Bool.false_eq_true, if_false]
  · intro hst
    rw [disk_resolved, hpid]
    simp only [disk_stat, root_path_eq, hst]

/-- Witness of C14 (amended): the metric name `used` with the PID 4321, once with `statvfs`
succeeding and once with `statvfs` failing. -/
theorem unknown_metric_after_statvfs_witness :
    zbx_module_lxd_disk (host_with_procs (cstr "4321\n") (cstr "/proc/4321/root/")) lxc_topology
        [cstr "c1", cstr "used"] {}
      = some (SYSINFO_RET_FAIL, SET_MSG_RESULT {} (cstr "Unknown metric"), lxc_topology)
    ∧ zbx_module_lxd_disk (host_with_procs (cstr "4321\n") []) lxc_topology
        [cstr "c1", cstr "used"] {}
      = some (SYSINFO_RET_FAIL,
          SET_MSG_RESULT {} (cstr "Failed to retrieve stats for process root"), lxc_topology) :=
  ⟨(unknown_metric_after_statvfs (host_with_procs (cstr "4321\n") (cstr "/proc/4321/root/"))
      (cstr "/sys/fs/cgroup/") (cstr "lxc/") (cstr "cpuacct/") (cstr "c1") (cstr "4321")
      (cstr "used") {} (by decide) (by decide)).1 example_statvfs (by decide),
   (unknown_metric_after_statvfs (host_with_procs (cstr "4321\n") [])
      (cstr "/sys/fs/cgroup/") (cstr "lxc/") (cstr "cpuacct/") (cstr "c1") (cstr "4321")
      (cstr "used") {} (by decide) (by decide)).2 (by decide)⟩

/-- C14 (counterexample): for the unsupported metric name `used`, on a host where the PID is
found and `statvfs` fails, the handler does not answer "Unknown metric" but
"Failed to retrieve stats for process root"; where `statvfs` succeeds it answers
"Unknown metric". The outcome depends on the `statvfs` call. -/
theorem unknown_metric_statvfs_counterexample :
    zbx_module_lxd_disk (host_with_procs (cstr "4321\n") []) lxc_topology
        [cstr "c1", cstr "used"] {}
      = some (SYSINFO_RET_FAIL,
          { msg := some (cstr "Failed to retrieve stats for process root") }, lxc_topology)
    ∧ zbx_module_lxd_disk (host_with_procs (cstr "4321\n") (cstr "/proc/4321/root/"))
        lxc_topology [cstr "c1", cstr "used"] {}
      = some (SYSINFO_RET_FAIL, { msg := some (cstr "Unknown metric") }, lxc_topology) := by
  decide

theorem procs_loop_pre (pre rest : List (List Char))
    (hpre : ∀ x ∈ pre, ∀ u, scan_ui64 x = some u → pid_string (to_int32 u) ≠ none) :
    ∀ pid, ∃ pid1, procs_loop (pre ++ rest) pid = procs_loop rest pid1 := by
  induction pre with
  | nil => exact fun pid => ⟨pid, rfl⟩
  | cons x xs ih =>
    intro pid
    have ih2 := ih (fun y hy => hpre y (List.mem_cons_of_mem _ hy))
    rw [List.cons_append, procs_loop]
    cases hx : scan_ui64 x with
    | none => exact ih2 pid
    | some u =>
      simp only []
      cases hp : pid_string (to_int32 u) with
      | none => exact absurd hp (hpre x (List.mem_cons_self _ _) u hx)
      | some p => exact ih2 (some p)

theorem procs_loop_post (post : List (List Char)) (hpost : ∀ x ∈ post, scan_ui64 x = none)
    (pid : Option (List Char)) : procs_loop post pid = some pid := by
  induction post with
  | nil => rfl
  | cons x xs ih =>
    rw [procs_loop, hpost x (List.mem_cons_self _ _)]
    exact ih (fun y hy => hpost y (List.mem_cons_of_mem _ hy))

theorem to_int32_small (v : Nat) (h : v < 2 ^ 31) : to_int32 v = (v : Int) := by
  unfold to_int32
  have : v % 2 ^ 32 = v := Nat.mod_eq_of_lt (by omega)
  rw [this, if_pos h]

theorem pid_string_pos (v : Nat) (h1 : 1 ≤ v) :
    pid_string (v : Int) = some (zbx_snprintf_d (ceil_log10 v + 1) (v : Int)) := by
  unfold pid_string
  rw [if_neg (by omega)]
  rfl

/-- C15 (amended): when the last buffer of `cgroup.procs` that scans as an integer holds the
value `v` (with `1 <= v < 2^31`), the PID string that `zbx_module_lxd_disk` resolves in step 1
is the one printed from `v`, whatever lines precede it: every scanning line overwrites the PID
of the lines before it. -/
theorem procs_last_line_pid (env : Env) (filename container procs : List Char)
    (result : AGENT_RESULT) (pre post : List (List Char)) (l : List Char) (v : Nat)
    (hopen : env.fopen filename = some procs)
    (hsplit : fgets_all 128 procs = pre ++ l :: post)
    (hv : scan_ui64 l = some v) (h1 : 1 ≤ v) (h31 : v < 2 ^ 31)
    (hpost : ∀ x ∈ post, scan_ui64 x = none)
    (hpre : ∀ x ∈ pre, ∀ u, scan_ui64 x = some u → pid_string (to_int32 u) ≠ none) :
    disk_find_pid env filename container result
      = some (Sum.inr (zbx_snprintf_d (ceil_log10 v + 1) (v : Int))) := by
  unfold disk_find_pid
  simp only [hopen, hsplit]
  obtain ⟨pid1, h⟩ := procs_loop_pre pre (l :: post) hpre none
  rw [h, procs_loop, hv]
  simp only [to_int32_small v h31, pid_string_pos v h1, procs_loop_post post hpost]

/-- Witness of C15 (amended): the content `12` / `34` / `x` resolves to the PID string `34`. -/
theorem procs_last_line_pid_witness :
    disk_find_pid (host_with_procs (cstr "12\n34\nx\n") [])
        (cstr "/sys/fs/cgroup/cpuacct/lxc/c1/ns/init.scope/cgroup.procs") (cstr "c1") {}
      = some (Sum.inr (cstr "34")) :=
  (procs_last_line_pid (host_with_procs (cstr "12\n34\nx\n") [])
    (cstr "/sys/fs/cgroup/cpuacct/lxc/c1/ns/init.scope/cgroup.procs") (cstr "c1")
    (cstr "12\n34\nx\n") {} [cstr "12\n"] [cstr "x\n"] (cstr "34\n") 34 (by decide) (by decide)
    (by decide) (by decide) (by decide) (by decide) (by decide)).trans (by decide)

/-- C15 (counterexample): for the `cgroup.procs` content `12` / `34` the first line that scans
as an integer holds 12, but the PID resolved in step 1 is `34`, and `statvfs` is asked about
`/proc/34/root/`: on a host where only that path answers, the handler returns OK. -/
theorem procs_first_line_counterexample :
    disk_find_pid (host_with_procs (cstr "12\n34\n") (cstr "/proc/34/root/"))
        (cstr "/sys/fs/cgroup/cpuacct/lxc/c1/ns/init.scope/cgroup.procs") (cstr "c1") {}
      = some (Sum.inr (cstr "34"))
    ∧ zbx_module_lxd_disk (host_with_procs (cstr "12\n34\n") (cstr "/proc/34/root/"))
        lxc_topology [cstr "c1", cstr "inodes"] {}
      = some (SYSINFO_RET_OK, { ui64 := some 500 }, lxc_topology)
    ∧ zbx_module_lxd_disk (host_with_procs (cstr "12\n34\n") (cstr "/proc/12/root/"))
        lxc_topology [cstr "c1", cstr "inodes"] {}
      = some (SYSINFO_RET_FAIL,
          { msg := some (cstr "Failed to retrieve stats for process root") }, lxc_topology) := by
  decide

theorem ceil_log10_from_spec (n : Nat) : ∀ (fuel k : Nat), fuel + k = n →
    (∀ j, j < k → 10 ^ j < n) →
    n ≤ 10 ^ ceil_log10_from n fuel k ∧ ∀ j, j < ceil_log10_from n fuel k → 10 ^ j < n := by
  intro fuel
  induction fuel with
  | zero =>
    intro k hk hbelow
    rw [ceil_log10_from]
    have : k = n := by omega
    subst this
    exact ⟨Nat.le_of_lt (Nat.lt_pow_self (by decide) k), hbelow⟩
  | succ f ih =>
    intro k hk hbelow
    rw [ceil_log10_from]
    by_cases hle : n ≤ 10 ^ k
    · rw [if_pos hle]
      exact ⟨hle, hbelow⟩
    · rw [if_neg hle]
      apply ih (k + 1) (by omega)
      intro j hj
      by_cases hjk : j = k
      · subst hjk
        omega
      · exact hbelow j (by omega)

/-- The size computed for a PID that is not a power of ten holds all its digits. -/
theorem pid_string_complete (p : Nat) (h1 : 1 ≤ p) (hpow : ∀ k, p ≠ 10 ^ k) :
    pid_string (p : Int) = some (Nat.toDigits 10 p) := by
  obtain ⟨hle, hbelow⟩ := ceil_log10_from_spec p p 0 (by omega) (fun j hj => by omega)
  have hlt : p < 10 ^ ceil_log10 p := Nat.lt_of_le_of_ne hle (hpow _)
  have hpos : 0 < ceil_log10 p := by
    rcases Nat.eq_zero_or_pos (ceil_log10 p) with h0 | h0
    · rw [h0] at hlt
      simp at hlt
      omega
    · exact h0
  have hlen : (Nat.toDigits 10 p).length ≤ ceil_log10 p :=
    Nat.toDigitsCore_length 10 (by decide) (p + 1) p (ceil_log10 p) hlt hpos
  rw [pid_string_pos p h1]
  unfold zbx_snprintf_d format_d
  rw [if_neg (by omega), Nat.add_sub_cancel, Int.toNat_natCast]
  exact congrArg some (List.take_of_length_le hlen)

/-- C16 (failing input): for the PID 10 read from `cgroup.procs` the buffer has
`ceil(log10(10)) + 1 = 2` bytes and holds the single digit `1`: the path handed to `statvfs` is
`/proc/1/root/`, not `/proc/10/root/`. Likewise 1000 is printed as `100` and 1 as the empty
string, while 4321, which is not a power of ten, is printed in full. -/
theorem pid_power_of_ten_truncated :
    disk_find_pid (host_with_procs (cstr "10\n") (cstr "/proc/1/root/"))
        (cstr "/sys/fs/cgroup/cpuacct/lxc/c1/ns/init.scope/cgroup.procs") (cstr "c1") {}
      = some (Sum.inr (cstr "1"))
    ∧ zbx_module_lxd_disk (host_with_procs (cstr "10\n") (cstr "/proc/1/root/"))
        lxc_topology [cstr "c1", cstr "inodes"] {}
      = some (SYSINFO_RET_OK, { ui64 := some 500 }, lxc_topology)
    ∧ zbx_module_lxd_disk (host_with_procs (cstr "10\n") (cstr "/proc/10/root/"))
        lxc_topology [cstr "c1", cstr "inodes"] {}
      = some (SYSINFO_RET_FAIL,
          { msg := some (cstr "Failed to retrieve stats for process root") }, lxc_topology)
    ∧ pid_string 1000 = some (cstr "100")
    ∧ pid_string 1 = some (cstr "")
    ∧ pid_string 4321 = some (cstr "4321") := by
  decide

/-! ## Discovery and shutdown: claims C17, C18 and C20 -/

theorem hostname_loop_some (env : Env) : ∀ (fuel len : Nat), 1 ≤ len →
    env.hostname.length + 3 < len + fuel → 0 < fuel →
    hostname_loop env fuel len = some env.hostname := by
  intro fuel
  induction fuel with
  | zero => intro len _ _ h; omega
  | succ f ih =>
    intro len hlen hbig _
    rw [hostname_loop]
    unfold gethostname strlen
    by_cases hfit : env.hostname.length + 1 ≤ len - 1
    · rw [if_pos hfit]
      simp only []
      by_cases hlt : env.hostname.length < len - 2
      · rw [if_pos hlt]
      · rw [if_neg hlt]
        exact ih (len * 2) (by omega) (by omega) (by omega)
    · rw [if_neg hfit]
      simp only []
      exact ih (len * 2) (by omega) (by omega) (by omega)

theorem hostname_loop_eq (env : Env) :
    hostname_loop env (strlen env.hostname + 1) 128 = some env.hostname :=
  hostname_loop_some env _ 128 (by omega) (by unfold strlen; omega) (by omega)

theorem discovery_loop_eq (env : Env) (ddir hostname : List Char) (entries : List (List Char)) :
    discovery_loop env ddir hostname entries
      = (entries.filter (fun d => !(d == cstr ".") && !(d == cstr "..")
            && (env.stat (ddir ++ cstr "/" ++ d) == some true))).map
          (fun d => [(cstr "\x7b#HCONTAINERID\x7d", d), (cstr "\x7b#SYSTEM.HOSTNAME\x7d", hostname)])
    := by
  induction entries with
  | nil => rfl
  | cons d rest ih =>
    rw [discovery_loop, List.filter_cons]
    unfold strcmp_eq0
    by_cases h1 : d = cstr "."
    · simp [h1, ih]
    · by_cases h2 : d = cstr ".."
      · simp [h2, ih]
      · have e1 : (d == cstr ".") = false := beq_eq_false_iff_ne.mpr h1
        have e2 : (d == cstr "..") = false := beq_eq_false_iff_ne.mpr h2
        rw [e1, e2]
        cases hst : env.stat (ddir ++ cstr "/" ++ d) with
        | none => simpa using ih
        | some b =>
          cases b with
          | true => simp [ih]
          | false => simpa using ih

/-- C17: with `stat_dir` and `driver` set and the directory `stat_dir ++ "cpuset/" ++ driver`
opening, `zbx_module_lxd_discovery` returns OK and the `data` array of its JSON document holds,
in enumeration order, one object for every entry that is neither `.` nor `..` and that
`zbx_stat` shows as a directory, with the macro HCONTAINERID set to the entry name and the macro
SYSTEM.HOSTNAME set to the host name; all other entries add nothing. -/
theorem discovery_lists_directories (buffer : zbx_json → List Char) (env : Env)
    (sd dr : List Char) (cg : Option (List Char)) (request : List (List Char))
    (result : AGENT_RESULT) (hdir : env.opendir (sd ++ cstr "cpuset/" ++ dr) = true) :
    zbx_module_lxd_discovery buffer env ⟨some sd, some dr, cg⟩ request result =
      some (SYSINFO_RET_OK,
        SET_STR_RESULT result (buffer ⟨((env.readdir (sd ++ cstr "cpuset/" ++ dr)).filter
          (fun d => !(d == cstr ".") && !(d == cstr "..")
            && (env.stat (sd ++ cstr "cpuset/" ++ dr ++ cstr "/" ++ d) == some true))).map
          (fun d => [(cstr "\x7b#HCONTAINERID\x7d", d),
            (cstr "\x7b#SYSTEM.HOSTNAME\x7d", env.hostname)])⟩),
        ⟨some sd, some dr, cg⟩) := by
  have hddir : zbx_strlcat (zbx_strlcat (zbx_strlcpy sd
        ((cstr "cpuset/").length + sd.length + dr.length + 2)) (cstr "cpuset/")
        ((cstr "cpuset/").length + sd.length + dr.length + 2)) dr
        ((cstr "cpuset/").length + sd.length + dr.length + 2) = sd ++ cstr "cpuset/" ++ dr := by
    rw [zbx_strlcpy_fits sd _ (by omega), zbx_strlcat_fits sd _ _ (by omega),
      zbx_strlcat_fits _ dr _ (by simp only [List.length_append]; omega)]
  unfold zbx_module_lxd_discovery discovery_list
  have hh : hostname_loop env (env.hostname.length + 1) 128 = some env.hostname :=
    hostname_loop_eq env
  simp only [Option.isNone_some, Bool.false_eq_true, if_false, strlen, hddir, hdir,
    Bool.not_true, hh, discovery_loop_eq]

/-- Witness of C17: the entries `.`, `c1` (a directory), `tasks` (a file), `c2` (a directory)
and `gone` (`zbx_stat` fails). -/
theorem discovery_lists_directories_witness :
    zbx_module_lxd_discovery example_buffer
        (host_with_entries [cstr ".", cstr "c1", cstr "tasks", cstr "c2", cstr "gone"]
          (fun p => if p = cstr "/sys/fs/cgroup/cpuset/lxc//c1" then some true
            else if p = cstr "/sys/fs/cgroup/cpuset/lxc//c2" then some true
            else if p = cstr "/sys/fs/cgroup/cpuset/lxc//tasks" then some false else none) [])
        lxc_topology [] {}
      = some (SYSINFO_RET_OK,
          { str := some (example_buffer
              ⟨[[(cstr "\x7b#HCONTAINERID\x7d", cstr "c1"),
                  (cstr "\x7b#SYSTEM.HOSTNAME\x7d", cstr "web1")],
                [(cstr "\x7b#HCONTAINERID\x7d", cstr "c2"),
                  (cstr "\x7b#SYSTEM.HOSTNAME\x7d", cstr "web1")]]⟩) },
          lxc_topology) :=
  (discovery_lists_directories example_buffer
    (host_with_entries [cstr ".", cstr "c1", cstr "tasks", cstr "c2", cstr "gone"]
      (fun p => if p = cstr "/sys/fs/cgroup/cpuset/lxc//c1" then some true
        else if p = cstr "/sys/fs/cgroup/cpuset/lxc//c2" then some true
        else if p = cstr "/sys/fs/cgroup/cpuset/lxc//tasks" then some false else none) [])
    (cstr "/sys/fs/cgroup/") (cstr "lxc/") (some (cstr "cpuacct/")) [] {} (by decide)).trans
    (by decide)

theorem detect_driver_congr (env env1 : Env) (h : env1.opendir = env.opendir) (g : Globals)
    (sd : List Char) (ds : List (List Char)) :
    detect_driver env1 g sd ds = detect_driver env g sd ds := by
  induction ds with
  | nil => rfl
  | cons d rest ih =>
    rw [detect_driver, detect_driver]
    simp only [detect_cpu_cgroup, h, ih]

theorem detect_scan_congr (env env1 : Env) (h : env1.opendir = env.opendir) (g : Globals)
    (chunks : List (List Char)) : detect_scan env1 g chunks = detect_scan env g chunks := by
  induction chunks with
  | nil => rfl
  | cons c rest ih =>
    rw [detect_scan, detect_scan]
    simp only [detect_found, detect_driver_congr env env1 h, ih]

/-- Detection reads the environment only through `fopen` and `opendir`. -/
theorem zbx_lxd_dir_detect_congr (env env1 : Env) (hf : env1.fopen = env.fopen)
    (ho : env1.opendir = env.opendir) (g : Globals) :
    zbx_lxd_dir_detect env1 g = zbx_lxd_dir_detect env g := by
  unfold zbx_lxd_dir_detect
  simp only [hf, detect_scan_congr env env1 ho]

/-- C18: when `stat_dir` is unset and `zbx_lxd_dir_detect` fails, `zbx_module_lxd_discovery`
returns SYSINFO_RET_FAIL with its string result set to the JSON document whose `data` array is
empty; no directory is enumerated: the answer is the same whatever `readdir`, `zbx_stat` and
`gethostname` would deliver. -/
theorem discovery_unresolved_empty (buffer : zbx_json → List Char) (env : Env) (g g1 : Globals)
    (request : List (List Char)) (result : AGENT_RESULT) (h : g.stat_dir = none)
    (hdet : zbx_lxd_dir_detect env g = some (SYSINFO_RET_FAIL, g1)) :
    zbx_module_lxd_discovery buffer env g request result
        = some (SYSINFO_RET_FAIL, SET_STR_RESULT result (buffer ⟨[]⟩), g1)
    ∧ ∀ (entries : List Char → List (List Char)) (stat : List Char → Option Bool)
        (name : List Char),
        zbx_module_lxd_discovery buffer
            { env with readdir := entries, stat := stat, hostname := name } g request result
          = some (SYSINFO_RET_FAIL, SET_STR_RESULT result (buffer ⟨[]⟩), g1) := by
  constructor
  · unfold zbx_module_lxd_discovery
    simp [h, hdet]
  · intro entries stat name
    unfold zbx_module_lxd_discovery
    have hc := zbx_lxd_dir_detect_congr env
      { env with readdir := entries, stat := stat, hostname := name } rfl rfl g
    rw [hc]
    simp [h, hdet]

/-- Witness of C18: a host whose mount table has no cpuset line. -/
theorem discovery_unresolved_empty_witness :
    zbx_module_lxd_discovery example_buffer (host_with_mounts (cstr "proc /proc proc rw 0 0\n")
        (fun _ => true)) {} [] {}
      = some (SYSINFO_RET_FAIL, SET_STR_RESULT {} (example_buffer ⟨[]⟩), {}) :=
  (discovery_unresolved_empty example_buffer
    (host_with_mounts (cstr "proc /proc proc rw 0 0\n") (fun _ => true)) {} {} [] {} rfl
    (by decide)).1

theorem uninit_loop_unlinked (env : Env) (entries : List (List Char)) :
    (uninit_loop env entries).1
      = (entries.filter (fun d => !(d == cstr ".") && !(d == cstr "..")
            && (strstr d znetns_prefix).isSome)).map (fun d => cstr "/var/run/netns/" ++ d) := by
  induction entries with
  | nil => rfl
  | cons d rest ih =>
    rw [uninit_loop, List.filter_cons]
    unfold strcmp_eq0
    by_cases h1 : d = cstr "."
    · simp [h1, ih]
    · by_cases h2 : d = cstr ".."
      · simp [h2, ih]
      · have e1 : (d == cstr ".") = false := beq_eq_false_iff_ne.mpr h1
        have e2 : (d == cstr "..") = false := beq_eq_false_iff_ne.mpr h2
        rw [e1, e2]
        cases hst : strstr d znetns_prefix with
        | none => simpa using ih
        | some t =>
          simp only [Option.isSome_some, Bool.not_false, Bool.and_self, Bool.or_self,
            Bool.false_eq_true, if_true, if_false, List.map_cons]
          by_cases hu : env.unlink (cstr "/var/run/netns/" ++ d) = 0
          · rw [if_neg (not_not.mpr hu), ih]
          · rw [if_pos hu, ih]

/-- What `zbx_module_uninit` does: it returns ZBX_MODULE_OK whatever `unlink` returns, and it
hands to `unlink` the entries other than `.` and `..` whose name contains `znetns_prefix`
anywhere. -/
theorem uninit_unlinks_containing (env : Env) :
    (zbx_module_uninit env).1 = ZBX_MODULE_OK
    ∧ (env.opendir (cstr "/var/run/netns") = true → (zbx_module_uninit env).2.1
        = ((env.readdir (cstr "/var/run/netns")).filter
            (fun d => !(d == cstr ".") && !(d == cstr "..")
              && (strstr d znetns_prefix).isSome)).map (fun d => cstr "/var/run/netns/" ++ d))
    ∧ (env.opendir (cstr "/var/run/netns") = false → (zbx_module_uninit env).2.1 = []) := by
  unfold zbx_module_uninit
  refine ⟨?_, ?_, ?_⟩
  · cases env.opendir (cstr "/var/run/netns") <;> rfl
  · intro h
    rw [if_pos h]
    exact uninit_loop_unlinked env _
  · intro h
    rw [h]
    rfl

/-- C20 (failing input): for the listing `.`, `..`, `zabbix_module_lxd_a`,
`my_zabbix_module_lxd_b`, `other` of `/var/run/netns`, `zbx_module_uninit` returns
ZBX_MODULE_OK (although `unlink` fails on the first file) and hands to `unlink` not only
`zabbix_module_lxd_a` but also `my_zabbix_module_lxd_b`, whose name does not begin with
`znetns_prefix`. -/
theorem uninit_unlinks_non_prefix_entry :
    zbx_module_uninit
        (host_with_entries [cstr ".", cstr "..", cstr "zabbix_module_lxd_a",
          cstr "my_zabbix_module_lxd_b", cstr "other"] (fun _ => none)
          (cstr "/var/run/netns/zabbix_module_lxd_a"))
      = (ZBX_MODULE_OK,
          [cstr "/var/run/netns/zabbix_module_lxd_a", cstr "/var/run/netns/my_zabbix_module_lxd_b"],
          [cstr "zabbix_module_lxd_a"])
    ∧ ¬ List.IsPrefix znetns_prefix (cstr "my_zabbix_module_lxd_b") := by
  decide

/-! ## File names and remaining reader behaviour: claims C21 to C23 -/

/-- C21: the file name built with `zbx_strlcpy`/`zbx_strlcat` in a buffer of the summed lengths
plus 2 is exactly `base ++ controller ++ driver ++ container ++ suffix`, for strings of any
length, and this is the name each handler hands to `fopen`: when that file does not open, up
answers 0, mem, cpu and dev answer their "Cannot open" failure, and disk goes on with the PID
search for that file name. -/
theorem filename_is_concatenation (env : Env) (sd cg dr id suffix stat metric : List Char)
    (result : AGENT_RESULT) :
    metric_filename sd cg dr id suffix = sd ++ cg ++ dr ++ id ++ suffix
    ∧ (env.fopen (sd ++ cg ++ dr ++ id ++ cstr "/cpuacct.stat") = none →
        zbx_module_lxd_up env ⟨some sd, some dr, some cg⟩ [id] result
          = some (SYSINFO_RET_OK, SET_UI64_RESULT result 0, ⟨some sd, some dr, some cg⟩))
    ∧ (env.fopen (sd ++ cstr "memory/" ++ dr ++ id ++ cstr "/memory.stat") = none →
        zbx_module_lxd_mem env ⟨some sd, some dr, some cg⟩ [id, metric] result
          = (SYSINFO_RET_FAIL, SET_MSG_RESULT result (cstr "Cannot open memory.stat file")))
    ∧ (env.fopen (sd ++ (cpu_source metric cg).2 ++ dr ++ id ++ (cpu_source metric cg).1) = none →
        zbx_module_lxd_cpu env ⟨some sd, some dr, some cg⟩ [id, metric] result
          = some (SYSINFO_RET_FAIL, SET_MSG_RESULT result
              (cstr "Cannot open " ++ (cpu_source metric cg).1.drop 1 ++ cstr " file"),
              ⟨some sd, some dr, some cg⟩))
    ∧ (env.fopen (sd ++ cstr "blkio/" ++ dr ++ id ++ (cstr "/" ++ stat)) = none →
        zbx_module_lxd_dev env ⟨some sd, some dr, some cg⟩ [id, stat, metric] result
          = (SYSINFO_RET_FAIL, SET_MSG_RESULT result
              (cstr "Cannot open stat file, maybe CONFIG_DEBUG_BLK_CGROUP is not enabled")))
    ∧ zbx_module_lxd_disk env ⟨some sd, some dr, some cg⟩ [id, metric] result =
        (match disk_find_pid env (sd ++ cg ++ dr ++ id ++ cstr "/ns/init.scope/cgroup.procs") id
            result with
        | none => none
        | some (Sum.inl early) => some (early.1, early.2, ⟨some sd, some dr, some cg⟩)
        | some (Sum.inr pid) =>
          some ((disk_stat env pid metric result).1, (disk_stat env pid metric result).2,
            ⟨some sd, some dr, some cg⟩)) := by
  have hstat : zbx_strlcat (zbx_strlcpy (cstr "/") (strlen stat + 2)) stat (strlen stat + 2)
      = cstr "/" ++ stat := by
    rw [zbx_strlcpy_fits _ _ (by simp [strlen, cstr]),
      zbx_strlcat_fits _ _ _ (by simp [strlen, cstr]; omega)]
  refine ⟨metric_filename_eq _ _ _ _ _, ?_, ?_, ?_, ?_, disk_resolved _ _ _ _ _ _ _⟩
  · intro h
    unfold zbx_module_lxd_up up_probe
    simp only [List.length_cons, List.length_nil, ne_eq, not_true_eq_false, if_false,
      get_rparam, List.getD_cons_zero, metric_filename_eq, Option.isNone_some, Bool.or_self,
      Bool.false_eq_true, h]
  · intro h
    unfold zbx_module_lxd_mem
    simp only [List.length_cons, List.length_nil, ne_eq, not_true_eq_false, if_false,
      get_rparam, List.getD_cons_zero, List.getD_cons_succ, metric_filename_eq, h]
  · intro h
    unfold zbx_module_lxd_cpu cpu_read
    simp only [List.length_cons, List.length_nil, ne_eq, not_true_eq_false, if_false,
      get_rparam, List.getD_cons_zero, List.getD_cons_succ, metric_filename_eq,
      Option.isNone_some, Bool.or_self, Bool.false_eq_true, h]
  · intro h
    unfold zbx_module_lxd_dev
    simp only [List.length_cons, List.length_nil, ne_eq, not_true_eq_false, if_false,
      get_rparam, List.getD_cons_zero, List.getD_cons_succ, metric_filename_eq, hstat, h]

/-- Witness of C21: a host on which no stat file opens. -/
theorem filename_is_concatenation_witness :
    zbx_module_lxd_mem (host_with_mounts [] (fun _ => false)) lxc_topology
        [cstr "c1", cstr "rss"] {}
      = (SYSINFO_RET_FAIL, SET_MSG_RESULT {} (cstr "Cannot open memory.stat file"))
    ∧ zbx_module_lxd_up (host_with_mounts [] (fun _ => false)) lxc_topology [cstr "c1"] {}
      = some (SYSINFO_RET_OK, SET_UI64_RESULT {} 0, lxc_topology) :=
  ⟨(filename_is_concatenation (host_with_mounts [] (fun _ => false)) (cstr "/sys/fs/cgroup/")
      (cstr "cpuacct/") (cstr "lxc/") (cstr "c1") [] [] (cstr "rss") {}).2.2.1 (by decide),
   (filename_is_concatenation (host_with_mounts [] (fun _ => false)) (cstr "/sys/fs/cgroup/")
      (cstr "cpuacct/") (cstr "lxc/") (cstr "c1") [] [] (cstr "rss") {}).2.1 (by decide)⟩

/-- C22: for a non-empty device id `d` and operation name `o` without white space, `o` not
scanning as a number, and `n` below 2^64, `zbx_module_lxd_dev` called with the metric name
`d o` on a blkio file (lines fitting the buffer) whose first line beginning with `d o` and a
space is `d o n` returns OK with `n`: the two-column scan fails on `o` and the three-column
scan gives the third token. -/
theorem dev_device_qualified_metric (env : Env) (sd dr : List Char) (cg : Option (List Char))
    (id stat d o file : List Char) (pre post : List (List Char)) (result : AGENT_RESULT)
    (n : Nat) (hn : n < 2 ^ 64)
    (hd : d ≠ []) (hdws : ∀ c ∈ d, isspace c = false)
    (ho : o ≠ []) (hows : ∀ c ∈ o, isspace c = false) (honum : scan_ui64 o = none)
    (hopen : env.fopen (sd ++ cstr "blkio/" ++ dr ++ id ++ (cstr "/" ++ stat)) = some file)
    (hlines : file_lines file
      = pre ++ (d ++ cstr " " ++ o ++ cstr " " ++ Nat.toDigits 10 n ++ cstr "\n") :: post)
    (hfit : ∀ l ∈ file_lines file, l.length < MAX_STRING_LEN)
    (hpre : ∀ l ∈ pre, ¬ (d ++ cstr " " ++ o ++ cstr " ") <+: l) :
    sscanf_s_ui64 (d ++ cstr " " ++ o ++ cstr " " ++ Nat.toDigits 10 n ++ cstr "\n") = none
    ∧ sscanf_s_s_ui64 (d ++ cstr " " ++ o ++ cstr " " ++ Nat.toDigits 10 n ++ cstr "\n") = some n
    ∧ zbx_module_lxd_dev env ⟨some sd, some dr, cg⟩ [id, stat, d ++ cstr " " ++ o] result
        = (SYSINFO_RET_OK, SET_UI64_RESULT result n) := by
  obtain ⟨hds, hdig, hval⟩ := toDigits_decimal n
  have hL : d ++ cstr " " ++ o ++ cstr " " ++ Nat.toDigits 10 n ++ cstr "\n"
      = d ++ ' ' :: (o ++ ' ' :: (Nat.toDigits 10 n ++ ['\n'])) := by
    simp [cstr]
  have hsp : isspace ' ' = true := by decide
  have hnl : isspace '\n' = true := by decide
  have hdsws : ∀ c ∈ Nat.toDigits 10 n, isspace c = false :=
    fun c hc => isspace_false_of_isdigit c (hdig c hc)
  have hstat : zbx_strlcat (zbx_strlcpy (cstr "/") (strlen stat + 2)) stat (strlen stat + 2)
      = cstr "/" ++ stat := by
    rw [zbx_strlcpy_fits _ _ (by simp [strlen, cstr]),
      zbx_strlcat_fits _ _ _ (by simp [strlen, cstr]; omega)]
  have h2 : sscanf_s_ui64 (d ++ ' ' :: (o ++ ' ' :: (Nat.toDigits 10 n ++ ['\n']))) = none := by
    rw [sscanf_s_ui64_eq, second_token_append d _ ' ' hd hdws hsp,
      first_token_append o _ ' ' ho hows hsp, honum]
  have h3 : sscanf_s_s_ui64 (d ++ ' ' :: (o ++ ' ' :: (Nat.toDigits 10 n ++ ['\n'])))
      = some n := by
    rw [sscanf_s_s_ui64_eq, third_token_append d _ ' ' hd hdws hsp,
      second_token_append o _ ' ' ho hows hsp,
      first_token_append (Nat.toDigits 10 n) [] '\n' hds hdsws hnl,
      scan_ui64_digits _ hds hdig (by rw [hval]; exact hn), hval]
  rw [hL] at hlines ⊢
  refine ⟨h2, h3, ?_⟩
  unfold zbx_module_lxd_dev
  simp only [List.length_cons, List.length_nil, ne_eq, not_true_eq_false, if_false,
    get_rparam, List.getD_cons_zero, List.getD_cons_succ, metric_filename_eq, hstat, hopen]
  rw [fgets_all_eq_lines _ _ hfit, hlines, dev_loop_skip _ pre _ hpre, dev_loop]
  have hmatch : (d ++ cstr " " ++ o ++ cstr " ")
      <+: (d ++ ' ' :: (o ++ ' ' :: (Nat.toDigits 10 n ++ ['\n']))) :=
    ⟨Nat.toDigits 10 n ++ ['\n'], by simp [cstr]⟩
  rw [(strncmp_eq0_iff _ _).mpr hmatch, h2, h3]
  rfl

/-- Witness of C22: a file with an aggregate line, the line `8:0 Read 100` and a later line
`8:0 Read 7`, read with the metric name `8:0 Read`. -/
theorem dev_device_qualified_metric_witness :
    zbx_module_lxd_dev
        (host_with_file (cstr "/sys/fs/cgroup/blkio/lxc/c1/blkio.throttle.io_serviced")
          (cstr "Total 9\n8:0 Read 100\n8:0 Read 7\n") 1)
        ⟨some (cstr "/sys/fs/cgroup/"), some (cstr "lxc/"), none⟩
        [cstr "c1", cstr "blkio.throttle.io_serviced", cstr "8:0" ++ cstr " " ++ cstr "Read"] {}
      = (SYSINFO_RET_OK, SET_UI64_RESULT {} 100) :=
  (dev_device_qualified_metric _ (cstr "/sys/fs/cgroup/") (cstr "lxc/") none (cstr "c1")
    (cstr "blkio.throttle.io_serviced") (cstr "8:0") (cstr "Read")
    (cstr "Total 9\n8:0 Read 100\n8:0 Read 7\n") [cstr "Total 9\n"] [cstr "8:0 Read 7\n"] {} 100
    (by decide) (by decide) (by decide) (by decide) (by decide) (by decide) (by decide)
    (by decide) (by decide) (by decide)).2.2

/-- C23: `zbx_module_lxd_cpu` chooses its source file from the metric name and `cpu_cgroup`
alone: `/cpuacct.stat` under `cpu_cgroup` for the metrics "user" and "system"; for every other
metric `/cpu.stat`, under `cpu_cgroup` when that contains a comma and under `cpu/` otherwise.
The file handed to `fopen` is `stat_dir ++ controller ++ driver ++ id ++ stat_file`: when it
does not open, the handler fails with "Cannot open <stat_file> file". -/
theorem cpu_source_file (env : Env) (sd dr cg id metric : List Char) (result : AGENT_RESULT) :
    ((metric = cstr "user" ∨ metric = cstr "system") →
        cpu_source metric cg = (cstr "/cpuacct.stat", cg))
    ∧ (metric ≠ cstr "user" → metric ≠ cstr "system" → ',' ∈ cg →
        cpu_source metric cg = (cstr "/cpu.stat", cg))
    ∧ (metric ≠ cstr "user" → metric ≠ cstr "system" → ',' ∉ cg →
        cpu_source metric cg = (cstr "/cpu.stat", cstr "cpu/"))
    ∧ (env.fopen (sd ++ (cpu_source metric cg).2 ++ dr ++ id ++ (cpu_source metric cg).1) = none →
        zbx_module_lxd_cpu env ⟨some sd, some dr, some cg⟩ [id, metric] result
          = some (SYSINFO_RET_FAIL, SET_MSG_RESULT result
              (cstr "Cannot open " ++ (cpu_source metric cg).1.drop 1 ++ cstr " file"),
              ⟨some sd, some dr, some cg⟩))
    ∧ (∀ file, env.fopen (sd ++ (cpu_source metric cg).2 ++ dr ++ id ++ (cpu_source metric cg).1)
          = some file →
        zbx_module_lxd_cpu env ⟨some sd, some dr, some cg⟩ [id, metric] result
          = match cpu_loop env (metric ++ cstr " ") (fgets_all MAX_STRING_LEN file) with
            | some value =>
              some (SYSINFO_RET_OK, SET_UI64_RESULT result value, ⟨some sd, some dr, some cg⟩)
            | none => some (SYSINFO_RET_FAIL, SET_MSG_RESULT result
                (cstr "Cannot find a line with requested metric in cpuacct.stat file"),
                ⟨some sd, some dr, some cg⟩)) := by
  refine ⟨?_, ?_, ?_, ?_, ?_⟩
  · intro h
    unfold cpu_source strcmp_eq0
    rcases h with h | h <;> simp [h]
  · intro h1 h2 h3
    unfold cpu_source
    rw [strcmp_eq0_of_ne _ _ h1, strcmp_eq0_of_ne _ _ h2]
    have : strchr_found cg ',' = true := by
      unfold strchr_found
      exact List.contains_iff_exists_mem_beq.mpr ⟨',', h3, by simp⟩
    simp [this]
  · intro h1 h2 h3
    unfold cpu_source
    rw [strcmp_eq0_of_ne _ _ h1, strcmp_eq0_of_ne _ _ h2]
    have : strchr_found cg ',' = false := by
      unfold strchr_found
      cases hc : cg.contains ',' with
      | false => rfl
      | true =>
        obtain ⟨x, hx, hb⟩ := List.contains_iff_exists_mem_beq.mp hc
        have : ',' = x := by simpa using hb
        exact absurd (this ▸ hx) h3
    simp [this]
  · intro h
    unfold zbx_module_lxd_cpu cpu_read
    simp only [List.length_cons, List.length_nil, ne_eq, not_true_eq_false, if_false,
      get_rparam, List.getD_cons_zero, List.getD_cons_succ, metric_filename_eq,
      Option.isNone_some, Bool.or_self, Bool.false_eq_true, h]
  · intro file h
    unfold zbx_module_lxd_cpu cpu_read
    simp only [List.length_cons, List.length_nil, ne_eq, not_true_eq_false, if_false,
      get_rparam, List.getD_cons_zero, List.getD_cons_succ, metric_filename_eq,
      Option.isNone_some, Bool.or_self, Bool.false_eq_true, h]

/-- Witness of C23: the metric `nr_throttled` with the plain controller `cpuacct/` is read from
`/sys/fs/cgroup/cpu/lxc/c1/cpu.stat`. -/
theorem cpu_source_file_witness :
    cpu_source (cstr "nr_throttled") (cstr "cpuacct/") = (cstr "/cpu.stat", cstr "cpu/")
    ∧ cpu_source (cstr "nr_throttled") (cstr "cpu,cpuacct/")
        = (cstr "/cpu.stat", cstr "cpu,cpuacct/")
    ∧ cpu_source (cstr "system") (cstr "cpuacct/") = (cstr "/cpuacct.stat", cstr "cpuacct/")
    ∧ zbx_module_lxd_cpu
        (host_with_file (cstr "/sys/fs/cgroup/cpu/lxc/c1/cpu.stat") (cstr "nr_throttled 8\n") 1)
        lxc_topology [cstr "c1", cstr "nr_throttled"] {}
      = some (SYSINFO_RET_OK, SET_UI64_RESULT {} 8, lxc_topology) :=
  ⟨(cpu_source_file (host_with_mounts [] (fun _ => false)) [] [] (cstr "cpuacct/") []
      (cstr "nr_throttled") {}).2.2.1 (by decide) (by decide) (by decide),
   (cpu_source_file (host_with_mounts [] (fun _ => false)) [] [] (cstr "cpu,cpuacct/") []
      (cstr "nr_throttled") {}).2.1 (by decide) (by decide) (by decide),
   (cpu_source_file (host_with_mounts [] (fun _ => false)) [] [] (cstr "cpuacct/") []
      (cstr "system") {}).1 (Or.inr rfl),
   ((cpu_source_file
      (host_with_file (cstr "/sys/fs/cgroup/cpu/lxc/c1/cpu.stat") (cstr "nr_throttled 8\n") 1)
      (cstr "/sys/fs/cgroup/") (cstr "lxc/") (cstr "cpuacct/") (cstr "c1") (cstr "nr_throttled")
      {}).2.2.2.2 (cstr "nr_throttled 8\n") (by decide)).trans (by decide)⟩

end ZabbixLxd
